import Mathlib

/-!
# Container lifecycle and task dispatch of `adapter/ohos/entrance/ace_container.cpp`

A shallow embedding of `OHOS::Ace::Platform::AceContainer`.

* Heap objects (`Frontend`, `PipelineContext`, `JsEngine`, ...) are handles; a
  `RefPtr<T>` field is an `Option` of a handle, `nullptr` being `none`.
* Every call by which the source acts on a collaborator that lives outside
  this file (task executor, frontend, pipeline, view, engine registry,
  telemetry) is recorded, in program order, as an `Event` of the world's
  `trace`; factory calls and queries whose only use is their result
  (`PlatformWindow::Create`, `GetStateById`, `GetAbilityInfo`, the asset
  provider's `Initialize`) are read from `Env` or from the argument.
* A closure handed to `PostTask`/`PostSyncTask` is a `Task` value that records
  what the closure captured and what its body does when it runs.
* Dereferencing a null pointer is a `Fault`; a function that can do so returns
  `Except Fault _`.
* Values that collaborators return to this file are read from `Env`.
* `LOGI`/`LOGE`/trace statements have no effect on the modelled state and are
  left out.

Two string functions of other files are embedded as well, in the namespace
`OHOS.Ace.Framework`: `JsInspectorManager::ConvertStrToPropertyType`
(`adapter/preview/inspector/js_inspector_manager.cpp`) and `JSWeb::Create`
(`frameworks/bridge/declarative_frontend/jsview/js_web.cpp`).
-/

namespace OHOS.Ace.Platform

/-! ## Data model -/

/-- Modelled from the spec: `FrontendType` is declared outside this file. The
three enumerators the source tests for, and `UNSUPPORTED raw` for every other
value of the enumeration. -/
inductive FrontendType where
  | JS
  | JS_CARD
  | DECLARATIVE_JS
  | UNSUPPORTED (raw : Nat)
deriving DecidableEq, Repr

/-- The thread roles of `TaskExecutor::TaskType` (the file-IO role is spelled
`IO_`). -/
inductive TaskType where
  | PLATFORM
  | UI
  | IO_
  | GPU
  | JS
  | BACKGROUND
deriving DecidableEq, Repr

/-- The lifecycle states of `Frontend::State`. -/
inductive FrontendState where
  | ON_CREATE
  | ON_SHOW
  | ON_HIDE
  | ON_ACTIVE
  | ON_INACTIVE
  | ON_DESTROY
deriving DecidableEq, Repr

/-- The telemetry codes of `AppStartExcepType` used by this file. -/
inductive AppStartExcepType where
  | FRONTEND_TYPE_ERR
deriving DecidableEq, Repr

/-- Handle of a `Frontend` object. -/
abbrev FrontendRef := Nat

/-- Handle of a `PipelineContext` object. -/
abbrev PipelineRef := Nat

/-- Handle of a `JsEngine` object. -/
abbrev EngineRef := Nat

/-- Handle of any other heap object (window, theme manager, ...). -/
abbrev ObjRef := Nat

/-- A `double` or `float` argument that the code only passes on: its bit
pattern. -/
structure Scalar where
  bits : Nat
deriving DecidableEq, Repr

/-- The platform view (`AceView`): its identity and the instance id that
`GetInstanceId()` returns. -/
structure AceView where
  ref : Nat
  instanceId : Int
deriving DecidableEq, Repr

/-- The ability info read by `InitializeFrontend`. -/
structure AbilityInfo where
  isLauncherAbility : Bool
deriving DecidableEq, Repr

/-- The `AceAbility` behind the raw pointer `aceAbility_`; `info` is what
`GetAbilityInfo()` returns (a shared pointer that may be empty). -/
structure AceAbility where
  ref : Nat
  info : Option AbilityInfo
deriving DecidableEq, Repr

/-- A `FileAssetProvider` after `Initialize(packagePath, paths)`. -/
structure FileAssetProvider where
  packagePath : String
  paths : List String
deriving DecidableEq, Repr

/-- The `FlutterAssetManager` object: its identity, the providers pushed to it
and its package path. -/
structure FlutterAssetManager where
  ref : Nat
  providers : List FileAssetProvider
  packagePath : String
deriving DecidableEq, Repr

/-- Modelled from the spec: `FlutterTaskExecutor` is declared outside this
file. Which of its role contexts have been set up: the Platform role
(`InitPlatformThread`), the Scripting role (`InitJsThread(newThread)`, with the
flag it was given) and the UI/GPU/IO roles (`InitOtherThreads`). -/
structure TaskExecutor where
  platformThread : Bool
  jsThread : Option Bool
  otherThreads : Bool
deriving DecidableEq, Repr

/-- A `TouchPoint`: declared outside this file and only passed on. -/
structure TouchPoint where
  raw : Nat
deriving DecidableEq, Repr

/-- A `KeyEvent`: declared outside this file and only passed on. -/
structure KeyEvent where
  raw : Nat
deriving DecidableEq, Repr

/-- A `MouseEvent`: declared outside this file and only passed on. -/
structure MouseEvent where
  raw : Nat
deriving DecidableEq, Repr

/-- A `RotationEvent`: declared outside this file and only passed on. -/
structure RotationEvent where
  raw : Nat
deriving DecidableEq, Repr

/-- The frontend class that an allocation constructs. -/
inductive FrontendKind where
  | JsFrontend
  | CardFrontend
  | DeclarativeFrontend
deriving DecidableEq, Repr

/-- The closures this file hands to `PostTask`/`PostSyncTask`, each with the
values it captured. -/
inductive Task where
  /-- The body `Container::InitForThread(id)`. -/
  | InitForThread (id : Int)
  /-- The body `context->Destroy()`. -/
  | PipelineDestroy (context : Option PipelineRef)
  /-- The body `frontend->UpdateState(ON_DESTROY); frontend->Destroy()`. -/
  | FrontendDestroy (frontend : Option FrontendRef)
  /-- The body `LOGI("Wait UI thread...")`. -/
  | WaitUI
  /-- The body `LOGI("Wait JS thread...")`. -/
  | WaitJS
  /-- The body `front->TriggerGarbageCollection()` of `OnHide`. -/
  | FrontTriggerGC (front : FrontendRef)
  /-- The body `front->TransferJsPluginGetError(callbackId, errorCode, msg)`. -/
  | TransferJsPluginGetError (front : FrontendRef) (callbackId errorCode : Int) (msg : String)
  /-- The body `PurgeMallocCache()`. -/
  | PurgeMallocCache
  /-- The Scripting-role closure of `TriggerGarbageCollection`, holding a weak
  handle to the frontend. -/
  | WeakFrontendGC (frontend : Option FrontendRef)
  /-- The body `themeManager->SetColorScheme(..); themeManager->LoadCustomTheme(..)`. -/
  | LoadCustomTheme (themeManager : ObjRef) (assetManager : Option Nat) (colorScheme : Nat)
  /-- The body `context->SetupRootElement()`. -/
  | SetupRootElement (context : PipelineRef)
  /-- The body `context->OnTouchEvent(event)`. -/
  | OnTouchEvent (context : PipelineRef) (event : TouchPoint)
  /-- The body `result = context->OnKeyEvent(event)`. -/
  | OnKeyEvent (context : PipelineRef) (event : KeyEvent)
  /-- The body `context->OnMouseEvent(event)`. -/
  | OnMouseEvent (context : PipelineRef) (event : MouseEvent)
  /-- The body `result = context->OnRotationEvent(event)`. -/
  | OnRotationEvent (context : PipelineRef) (event : RotationEvent)
  /-- The body `context->OnSurfaceChanged(width, height)`. -/
  | OnSurfaceChanged (context : PipelineRef) (width height : Int)
  /-- The body `context->OnSurfaceDensityChanged(density)`. -/
  | OnSurfaceDensityChanged (context : PipelineRef) (density : Scalar)
  /-- The body `context->OnSystemBarHeightChanged(statusBar, navigationBar)`. -/
  | OnSystemBarHeightChanged (context : PipelineRef) (statusBar navigationBar : Scalar)
  /-- The body `context->OnSurfaceDestroyed()`. -/
  | OnSurfaceDestroyed (context : PipelineRef)
  /-- The body `context->OnIdle(deadline)`. -/
  | OnIdle (context : PipelineRef) (deadline : Int)
  /-- The Platform-role closure of the finish handler, holding a weak handle to
  the container of this instance id; its body calls `container->OnFinish()`. -/
  | ContainerOnFinish (weakContainer : Int)
  /-- The Platform-role closure of the status-bar handler, holding a weak handle
  to the container of this instance id and the colour value. -/
  | StatusBarBgColorChanged (weakContainer : Int) (color : Nat)
deriving DecidableEq, Repr

/-- The member functions of `Frontend` this file calls. -/
inductive FrontendOp where
  | SetJsEngine (engine : EngineRef)
  | SetNeedDebugBreakPoint (value : Bool)
  | SetDebugVersion (value : Bool)
  | DisallowPopLastPage
  | Initialize (type : FrontendType)
  | UpdateState (state : FrontendState)
  | SetJsMessageDispatcher (containerId : Int)
  | SetAssetManager (assetManager : Option Nat)
  | AttachPipelineContext (context : PipelineRef)
  | OnShow
  | OnHide
  | OnActive
  | OnInactive
  | OnStartContinuation
  | OnSaveData
  | OnRestoreData (data : String)
  | OnCompleteContinuation (result : Int)
  | OnRemoteTerminated
  | OnConfigurationUpdated (configuration : String)
  | OnNewRequest (data : String)
  | RunPage (pageId : Int) (content params : String)
  | PushPage (content params : String)
  | TriggerGarbageCollection
deriving DecidableEq, Repr

/-- The member functions of `PipelineContext` this file calls on the calling
thread; an installed handler is named with the instance id of the container
its closure holds weakly. -/
inductive PipelineOp where
  | CallRouterBackToPopPage
  | OnShow
  | OnHide
  | SetRootSize (density : Scalar) (width height : Int)
  | SetTextFieldManager (manager : ObjRef)
  | SetIsRightToLeft (value : Bool)
  | SetWindowModal (windowModal : Nat)
  | SetDrawDelegate
  | SetFinishEventHandler (weakContainer : Int)
  | SetStatusBarEventHandler (weakContainer : Int)
  | SetThemeManager (themeManager : ObjRef)
  | SetFontScale (fontScale : Scalar)
  | Dump (params : List String)
deriving DecidableEq, Repr

/-- The member functions of `AceView` this file calls; a registered callback
is named with the pipeline its closure captured. -/
inductive ViewOp where
  | SetCreateTime
  | GetPlatformResRegister
  | GetDrawDelegate
  | RegisterTouchEventCallback (context : Option PipelineRef)
  | RegisterKeyEventCallback (context : Option PipelineRef)
  | RegisterMouseEventCallback (context : Option PipelineRef)
  | RegisterRotationEventCallback (context : Option PipelineRef)
  | RegisterViewChangeCallback (context : Option PipelineRef)
  | RegisterDensityChangeCallback (context : Option PipelineRef)
  | RegisterSystemBarHeightChangeCallback (context : Option PipelineRef)
  | RegisterSurfaceDestroyCallback (context : Option PipelineRef)
  | RegisterIdleCallback (context : Option PipelineRef)
  | Launch
  | Dump (params : List String)
deriving DecidableEq, Repr

/-- One observable effect of the code on its collaborators. -/
inductive Event where
  /-- The call `taskExecutor->PostTask(task, role)`. -/
  | PostTask (task : Task) (role : TaskType)
  /-- The call `taskExecutor->PostSyncTask(task, role)`. -/
  | PostSyncTask (task : Task) (role : TaskType)
  | InitPlatformThread
  | InitJsThread (newThread : Bool)
  | InitOtherThreads
  /-- The call `Container::InitForThread(id)` on the calling thread. -/
  | InitForThread (id : Int)
  /-- A frontend object is constructed. -/
  | NewFrontend (frontend : FrontendRef) (kind : FrontendKind)
  /-- The call `JsEngineLoader::Get(lib)` or `GetDeclarative(lib)` followed by
  `CreateJsEngine(instanceId)`. -/
  | CreateJsEngine (declarative : Bool) (lib : String) (instanceId : Int) (engine : EngineRef)
  /-- The call `jsEngine->AddExtraNativeObject("ability", aceAbility_)`. -/
  | AddExtraNativeObject (engine : EngineRef) (name : String) (ability : Option Nat)
  /-- The call `AceApplicationInfo::GetInstance().SetCardType()`. -/
  | SetCardType
  /-- The call `EventReport::SendAppStartException(code)`. -/
  | SendAppStartException (code : AppStartExcepType)
  /-- A `PipelineContext` is constructed from these arguments. -/
  | NewPipeline (context : PipelineRef) (window : ObjRef) (assetManager : Option Nat)
      (resRegister : Option ObjRef) (frontend : Option FrontendRef) (instanceId : Int)
  /-- A member function of a frontend is called. -/
  | Frontend (frontend : FrontendRef) (op : FrontendOp)
  /-- A member function of a pipeline is called. -/
  | Pipeline (context : PipelineRef) (op : PipelineOp)
  /-- A member function of the view is called. -/
  | View (view : AceView) (op : ViewOp)
  /-- The statement `delete aceView_`. -/
  | DeleteView (view : AceView)
  /-- The call `ThemeConstants::InitDeviceType()`. -/
  | InitDeviceType
  /-- The call `themeManager->InitResource(resourceInfo_)`. -/
  | ThemeInitResource (themeManager : ObjRef)
  /-- The call `AceEngine::Get().AddContainer(id, container)`. -/
  | AddContainer (id : Int)
  /-- The call `AceEngine::Get().RemoveContainer(id)`. -/
  | RemoveContainer (id : Int)
  /-- The call `AceEngine::Get().RegisterToWatchDog(id, taskExecutor)`. -/
  | RegisterToWatchDog (id : Int)
  /-- The call `PurgeMallocCache()`. -/
  | PurgeMallocCache
  /-- The call `container->OnFinish()` on the container of this instance id. -/
  | ContainerOnFinish (id : Int)
  /-- The call `platformEventCallback_->OnStatusBarBgColorChanged(color)`. -/
  | OnStatusBarBgColorChanged (callback : ObjRef) (color : Nat)
deriving DecidableEq, Repr

/-- A null pointer is dereferenced; `what` names the pointer. -/
inductive Fault where
  | NullDeref (what : String)
deriving DecidableEq, Repr

/-- The data members of `AceContainer`. -/
structure AceContainer where
  instanceId_ : Int
  type_ : FrontendType
  isArkApp_ : Bool
  aceAbility_ : Option AceAbility
  platformEventCallback_ : Option ObjRef
  taskExecutor_ : Option TaskExecutor
  frontend_ : Option FrontendRef
  pipelineContext_ : Option PipelineRef
  assetManager_ : Option FlutterAssetManager
  resRegister_ : Option ObjRef
  aceView_ : Option AceView
  windowModal_ : Nat
  colorScheme_ : Nat
deriving DecidableEq, Repr

/-- The process-wide state: the container map of `AceEngine`, the effects so
far, and the next unused object handle. -/
structure World where
  registry : List (Int × AceContainer)
  trace : List Event
  nextObj : Nat
deriving DecidableEq, Repr

/-- What collaborators outside this file return, and the build flags. -/
structure Env where
  /-- The constant `INSTANCE_ID_PLATFORM`. -/
  INSTANCE_ID_PLATFORM : Int
  /-- Whether `WEARABLE_PRODUCT` is defined. -/
  WEARABLE_PRODUCT : Bool
  /-- Whether `_ARM64_` is defined. -/
  ARM64 : Bool
  /-- Whether `OHOS_PLATFORM` is defined. -/
  OHOS_PLATFORM : Bool
  /-- Whether `ENABLE_NATIVE_VIEW` is defined. -/
  ENABLE_NATIVE_VIEW : Bool
  /-- `PlatformWindow::Create(view)`: the window, or null. -/
  platformWindowCreate : AceView → Option ObjRef
  /-- `aceView_->GetPlatformResRegister()`: the register, or null. -/
  platformResRegister : AceView → Option ObjRef
  /-- Whether `UIDartState::Current()->GetStateById(id)` is non-null. -/
  hasDartState : Int → Bool
  /-- `AceApplicationInfo::GetInstance().IsNeedDebugBreakPoint()`. -/
  isNeedDebugBreakPoint : Bool
  /-- `AceApplicationInfo::GetInstance().IsDebugVersion()`. -/
  isDebugVersion : Bool
  /-- `AceApplicationInfo::GetInstance().IsRightToLeft()`. -/
  isRightToLeft : Bool
  /-- The result of `context->CallRouterBackToPopPage()`. -/
  callRouterBackToPopPage : PipelineRef → Bool
  /-- The result of `front->OnStartContinuation()`. -/
  frontOnStartContinuation : FrontendRef → Bool
  /-- What `front->OnSaveData(result)` leaves in `result`, given its value
  before the call. -/
  frontOnSaveData : FrontendRef → String → String
  /-- The result of `front->OnRestoreData(data)`. -/
  frontOnRestoreData : FrontendRef → String → Bool
  /-- The result of `aceView_->Dump(params)`. -/
  viewDump : AceView → List String → Bool
  /-- The result of `assetProvider->Initialize(packagePath, paths)`. -/
  assetProviderInit : String → List String → Bool
  /-- The result of `context->OnKeyEvent(event)`. -/
  pipelineOnKeyEvent : PipelineRef → KeyEvent → Bool
  /-- The result of `context->OnRotationEvent(event)`. -/
  pipelineOnRotationEvent : PipelineRef → RotationEvent → Bool

/-- Append one effect to the trace. -/
def World.emit (w : World) (e : Event) : World :=
  { w with trace := w.trace ++ [e] }

/-- Take the next unused object handle. -/
def World.alloc (w : World) : Nat × World :=
  (w.nextObj, { w with nextObj := w.nextObj + 1 })

/-! ## The container registry (`AceEngine`) -/

/-- Modelled from the spec: `AceEngine::GetContainer` is defined outside this
file. `Get(id)` returns none if absent, else the container registered under
`id`. -/
def AceEngine.GetContainer (w : World) (instanceId : Int) : Option AceContainer :=
  (w.registry.find? (fun e => e.1 == instanceId)).map Prod.snd

/-- Modelled from the spec: `AceEngine::AddContainer` is defined outside this
file. `Add(id, container)` fails (no-op) if `id` is already present. The call is
recorded either way. -/
def AceEngine.AddContainer (w : World) (instanceId : Int) (container : AceContainer) : World :=
  let w1 := w.emit (Event.AddContainer instanceId)
  match AceEngine.GetContainer w instanceId with
  | some _ => w1
  | none => { w1 with registry := w1.registry ++ [(instanceId, container)] }

/-- Modelled from the spec: `AceEngine::RemoveContainer` is defined outside
this file. `Remove(id)` de-registers `id`: no later `Get(id)` observes the
removed container. -/
def AceEngine.RemoveContainer (w : World) (instanceId : Int) : World :=
  let w1 := w.emit (Event.RemoveContainer instanceId)
  { w1 with registry := w1.registry.filter (fun e => !(e.1 == instanceId)) }

/-- The registered container object is the one the caller holds a `RefPtr` to:
after the caller has changed it, the entry under `instanceId` is the changed
object. Entries under other ids are untouched. -/
def World.store (w : World) (instanceId : Int) (container : AceContainer) : World :=
  let entries := w.registry.map (fun e => if e.1 == instanceId then (e.1, container) else e)
  { w with registry := entries }

/-! ## `AceContainer` member functions -/

/-- `AceContainer::GetFrontend()`. -/
def AceContainer.GetFrontend (c : AceContainer) : Option FrontendRef := c.frontend_

/-- `AceContainer::GetPipelineContext()`. -/
def AceContainer.GetPipelineContext (c : AceContainer) : Option PipelineRef := c.pipelineContext_

/-- `AceContainer::GetTaskExecutor()`. -/
def AceContainer.GetTaskExecutor (c : AceContainer) : Option TaskExecutor := c.taskExecutor_

/-- `AceContainer::Destroy()`. -/
def AceContainer.Destroy (c : AceContainer) (w : World) : AceContainer × World :=
  let (c, w) :=
    if c.pipelineContext_.isSome && c.taskExecutor_.isSome then
      if c.taskExecutor_.isSome then
        -- 1. Destroy Pipeline on UI thread.
        let context := c.pipelineContext_
        let c := { c with pipelineContext_ := none }
        let w := w.emit (Event.PostTask (Task.PipelineDestroy context) TaskType.UI)
        -- 2. Destroy Frontend on JS thread.
        let frontend := c.frontend_
        let c := { c with frontend_ := none }
        let w := w.emit (Event.PostTask (Task.FrontendDestroy frontend) TaskType.JS)
        (c, w)
      else (c, w)
    else (c, w)
  ({ c with resRegister_ := none, assetManager_ := none }, w)

/-- `AceContainer::DestroyView()`. -/
def AceContainer.DestroyView (c : AceContainer) (w : World) : AceContainer × World :=
  match c.aceView_ with
  | some view => ({ c with aceView_ := none }, w.emit (Event.DeleteView view))
  | none => (c, w)

/-- `AceContainer::GetContainer(instanceId)`; every registered container is an
`AceContainer`, so the `DynamicCast` succeeds. -/
def AceContainer.GetContainer (w : World) (instanceId : Int) : Option AceContainer :=
  match AceEngine.GetContainer w instanceId with
  | some container => some container
  | none => none

/-- `AceContainer::DestroyContainer(instanceId)`. The looked-up object is the
registered one, so what `Destroy` and `DestroyView` do to it shows in the
registry until `RemoveContainer` drops the entry. -/
def AceContainer.DestroyContainer (w : World) (instanceId : Int) : World :=
  match AceEngine.GetContainer w instanceId with
  | none => w
  | some container =>
    let (container, w) := container.Destroy w
    let taskExecutor := container.GetTaskExecutor
    let w :=
      if taskExecutor.isSome then
        let w := w.emit (Event.PostSyncTask Task.WaitUI TaskType.UI)
        w.emit (Event.PostSyncTask Task.WaitJS TaskType.JS)
      else w
    let (container, w) := container.DestroyView w
    let w := w.store instanceId container
    AceEngine.RemoveContainer w instanceId

/-! ## Engine libraries, construction and frontend initialisation -/

/-- The constant `QUICK_JS_ENGINE_SHARED_LIB`. -/
def QUICK_JS_ENGINE_SHARED_LIB : String := "libace_engine_qjs.z.so"

/-- The constant `ARK_ENGINE_SHARED_LIB`. -/
def ARK_ENGINE_SHARED_LIB : String := "libace_engine_ark.z.so"

/-- The constant `DECLARATIVE_JS_ENGINE_SHARED_LIB`. -/
def DECLARATIVE_JS_ENGINE_SHARED_LIB : String := "libace_engine_declarative.z.so"

/-- The constant `DECLARATIVE_ARK_ENGINE_SHARED_LIB`. -/
def DECLARATIVE_ARK_ENGINE_SHARED_LIB : String := "libace_engine_declarative_ark.z.so"

/-- The constant `ASSET_LIBARCH_PATH`, which depends on `_ARM64_`. -/
def ASSET_LIBARCH_PATH (env : Env) : String :=
  if env.ARM64 then "/lib/arm64" else "/lib/arm"

/-- `GetEngineSharedLibrary(isArkApp)`. -/
def GetEngineSharedLibrary (isArkApp : Bool) : String :=
  if isArkApp then ARK_ENGINE_SHARED_LIB else QUICK_JS_ENGINE_SHARED_LIB

/-- `GetDeclarativeSharedLibrary(isArkApp)`. -/
def GetDeclarativeSharedLibrary (isArkApp : Bool) : String :=
  if isArkApp then DECLARATIVE_ARK_ENGINE_SHARED_LIB else DECLARATIVE_JS_ENGINE_SHARED_LIB

/-- The constructor `AceContainer::AceContainer(instanceId, type, isArkApp,
aceAbility, callback)`. Members without an initialiser here start out null;
`windowModal_` and `colorScheme_` start at their first enumerator. -/
def AceContainer.new (w : World) (instanceId : Int) (type : FrontendType) (isArkApp : Bool)
    (aceAbility : Option AceAbility) (callback : Option ObjRef) : AceContainer × World :=
  let flutterTaskExecutor : TaskExecutor :=
    { platformThread := false, jsThread := none, otherThreads := false }
  let flutterTaskExecutor := { flutterTaskExecutor with platformThread := true }
  let w := w.emit Event.InitPlatformThread
  -- No need to create JS Thread for DECLARATIVE_JS
  let (flutterTaskExecutor, w) :=
    if type ≠ FrontendType.DECLARATIVE_JS then
      ({ flutterTaskExecutor with jsThread := some true }, w.emit (Event.InitJsThread true))
    else (flutterTaskExecutor, w)
  let w := w.emit (Event.PostTask (Task.InitForThread instanceId) TaskType.JS)
  ({ instanceId_ := instanceId, type_ := type, isArkApp_ := isArkApp, aceAbility_ := aceAbility,
     platformEventCallback_ := callback, taskExecutor_ := some flutterTaskExecutor,
     frontend_ := none, pipelineContext_ := none, assetManager_ := none, resRegister_ := none,
     aceView_ := none, windowModal_ := 0, colorScheme_ := 0 }, w)

/-- The first half of `AceContainer::InitializeFrontend()`: the branch on
`type_` that constructs the frontend. `none` is the final `else` branch, which
reports the start exception and returns. -/
def AceContainer.constructFrontend (env : Env) (c : AceContainer) (w : World) :
    Option (AceContainer × World) :=
  match c.type_ with
  | FrontendType.JS =>
    let (f, w) := w.alloc
    let c := { c with frontend_ := some f }
    let w := w.emit (Event.NewFrontend f FrontendKind.JsFrontend)
    let (jsEngine, w) := w.alloc
    let w := w.emit (Event.CreateJsEngine false (GetEngineSharedLibrary c.isArkApp_)
      c.instanceId_ jsEngine)
    let w := w.emit (Event.AddExtraNativeObject jsEngine "ability" (c.aceAbility_.map (·.ref)))
    let w := w.emit (Event.Frontend f (FrontendOp.SetJsEngine jsEngine))
    let w := w.emit (Event.Frontend f (FrontendOp.SetNeedDebugBreakPoint env.isNeedDebugBreakPoint))
    let w := w.emit (Event.Frontend f (FrontendOp.SetDebugVersion env.isDebugVersion))
    some (c, w)
  | FrontendType.JS_CARD =>
    let w := w.emit Event.SetCardType
    let (f, w) := w.alloc
    let c := { c with frontend_ := some f }
    let w := w.emit (Event.NewFrontend f FrontendKind.CardFrontend)
    some (c, w)
  | FrontendType.DECLARATIVE_JS =>
    let (f, w) := w.alloc
    let c := { c with frontend_ := some f }
    let w := w.emit (Event.NewFrontend f FrontendKind.DeclarativeFrontend)
    let (jsEngine, w) := w.alloc
    let w := w.emit (Event.CreateJsEngine true (GetDeclarativeSharedLibrary c.isArkApp_)
      c.instanceId_ jsEngine)
    let w := w.emit (Event.AddExtraNativeObject jsEngine "ability" (c.aceAbility_.map (·.ref)))
    let w := w.emit (Event.Frontend f (FrontendOp.SetJsEngine jsEngine))
    let w := w.emit (Event.Frontend f (FrontendOp.SetNeedDebugBreakPoint env.isNeedDebugBreakPoint))
    let w := w.emit (Event.Frontend f (FrontendOp.SetDebugVersion env.isDebugVersion))
    some (c, w)
  | FrontendType.UNSUPPORTED _ => none

/-- `AceContainer::InitializeFrontend()`. The engine loader is taken to hand
out an engine; `aceAbility_->GetAbilityInfo()` faults on a null ability. -/
def AceContainer.InitializeFrontend (env : Env) (c : AceContainer) (w : World) :
    Except Fault (AceContainer × World) :=
  match c.constructFrontend env w with
  | none =>
    -- LOGE("Frontend type not supported")
    Except.ok (c, w.emit (Event.SendAppStartException AppStartExcepType.FRONTEND_TYPE_ERR))
  | some (c, w) =>
    match c.aceAbility_, c.frontend_ with
    | none, _ => Except.error (Fault.NullDeref "aceAbility_")
    | some _, none => Except.error (Fault.NullDeref "frontend_")
    | some ability, some f =>
      let w :=
        match ability.info with
        | some info =>
          if info.isLauncherAbility then w.emit (Event.Frontend f FrontendOp.DisallowPopLastPage)
          else w
        | none => w
      Except.ok (c, w.emit (Event.Frontend f (FrontendOp.Initialize c.type_)))

/-- `AceContainer::Initialize()`. -/
def AceContainer.Initialize (env : Env) (c : AceContainer) (w : World) :
    Except Fault (AceContainer × World) :=
  -- For DECLARATIVE_JS frontend use UI as JS Thread, so InitializeFrontend after UI thread created.
  if c.type_ ≠ FrontendType.DECLARATIVE_JS then
    c.InitializeFrontend env w
  else Except.ok (c, w)

/-- `AceContainer::CreateContainer(instanceId, type, isArkApp, aceAbility,
callback)`. The new object is the registered one exactly when `AddContainer`
took it, in which case what `Initialize` does to it shows in the registry. -/
def AceContainer.CreateContainer (env : Env) (w : World) (instanceId : Int) (type : FrontendType)
    (isArkApp : Bool) (aceAbility : Option AceAbility) (callback : Option ObjRef) :
    Except Fault World :=
  let w := w.emit (Event.InitForThread env.INSTANCE_ID_PLATFORM)
  let (aceContainer, w) := AceContainer.new w instanceId type isArkApp aceAbility callback
  let registered := (AceEngine.GetContainer w instanceId).isNone
  let w := AceEngine.AddContainer w instanceId aceContainer
  match aceContainer.Initialize env w with
  | Except.error e => Except.error e
  | Except.ok (aceContainer, w) =>
    let w :=
      match aceContainer.GetFrontend with
      | some front =>
        let w := w.emit (Event.Frontend front (FrontendOp.UpdateState FrontendState.ON_CREATE))
        w.emit (Event.Frontend front (FrontendOp.SetJsMessageDispatcher aceContainer.instanceId_))
      | none => w
    Except.ok (if registered then w.store instanceId aceContainer else w)

/-! ## Static, instance-id-addressed entry points -/

/-- `AceContainer::OnBackPressed(instanceId)`. -/
def AceContainer.OnBackPressed (env : Env) (w : World) (instanceId : Int) : Bool × World :=
  match AceEngine.GetContainer w instanceId with
  | none => (false, w)
  | some container =>
    match container.GetPipelineContext with
    | none => (false, w)
    | some context =>
      (env.callRouterBackToPopPage context,
        w.emit (Event.Pipeline context PipelineOp.CallRouterBackToPopPage))

/-- `AceContainer::OnShow(instanceId)`. -/
def AceContainer.OnShow (env : Env) (w : World) (instanceId : Int) : World :=
  match AceEngine.GetContainer w instanceId with
  | none => w
  | some container =>
    let w :=
      match container.GetFrontend with
      | some front => w.emit (Event.Frontend front FrontendOp.OnShow)
      | none => w
    match container.GetPipelineContext with
    | none => w
    | some context =>
      if !env.WEARABLE_PRODUCT then w.emit (Event.Pipeline context PipelineOp.OnShow) else w

/-- `AceContainer::OnHide(instanceId)`. -/
def AceContainer.OnHide (env : Env) (w : World) (instanceId : Int) : World :=
  match AceEngine.GetContainer w instanceId with
  | none => w
  | some container =>
    let w :=
      match container.GetFrontend with
      | some front =>
        let w := w.emit (Event.Frontend front FrontendOp.OnHide)
        let taskExecutor := container.GetTaskExecutor
        if taskExecutor.isSome then
          w.emit (Event.PostTask (Task.FrontTriggerGC front) TaskType.JS)
        else w
      | none => w
    match container.GetPipelineContext with
    | none => w
    | some context =>
      if !env.WEARABLE_PRODUCT then w.emit (Event.Pipeline context PipelineOp.OnHide) else w

/-- `AceContainer::OnActive(instanceId)`. -/
def AceContainer.OnActive (w : World) (instanceId : Int) : World :=
  match AceEngine.GetContainer w instanceId with
  | none => w
  | some container =>
    match container.GetFrontend with
    | some front => w.emit (Event.Frontend front FrontendOp.OnActive)
    | none => w

/-- `AceContainer::OnInactive(instanceId)`. -/
def AceContainer.OnInactive (w : World) (instanceId : Int) : World :=
  match AceEngine.GetContainer w instanceId with
  | none => w
  | some container =>
    match container.GetFrontend with
    | some front => w.emit (Event.Frontend front FrontendOp.OnInactive)
    | none => w

/-- `AceContainer::OnStartContinuation(instanceId)`. -/
def AceContainer.OnStartContinuation (env : Env) (w : World) (instanceId : Int) : Bool × World :=
  match AceEngine.GetContainer w instanceId with
  | none => (false, w)
  | some container =>
    match container.GetFrontend with
    | none => (false, w)
    | some front =>
      (env.frontOnStartContinuation front,
        w.emit (Event.Frontend front FrontendOp.OnStartContinuation))

/-- `AceContainer::OnSaveData(instanceId)`. -/
def AceContainer.OnSaveData (env : Env) (w : World) (instanceId : Int) : String × World :=
  let result : String := "false"
  match AceEngine.GetContainer w instanceId with
  | none => (result, w)
  | some container =>
    match container.GetFrontend with
    | none => (result, w)
    | some front =>
      let w := w.emit (Event.Frontend front FrontendOp.OnSaveData)
      let result := env.frontOnSaveData front result
      (result, w)

/-- `AceContainer::OnRestoreData(instanceId, data)`. -/
def AceContainer.OnRestoreData (env : Env) (w : World) (instanceId : Int) (data : String) :
    Bool × World :=
  match AceEngine.GetContainer w instanceId with
  | none => (false, w)
  | some container =>
    match container.GetFrontend with
    | none => (false, w)
    | some front =>
      (env.frontOnRestoreData front data,
        w.emit (Event.Frontend front (FrontendOp.OnRestoreData data)))

/-- `AceContainer::OnCompleteContinuation(instanceId, result)`. -/
def AceContainer.OnCompleteContinuation (w : World) (instanceId : Int) (result : Int) : World :=
  match AceEngine.GetContainer w instanceId with
  | none => w
  | some container =>
    match container.GetFrontend with
    | none => w
    | some front => w.emit (Event.Frontend front (FrontendOp.OnCompleteContinuation result))

/-- `AceContainer::OnRemoteTerminated(instanceId)`. -/
def AceContainer.OnRemoteTerminated (w : World) (instanceId : Int) : World :=
  match AceEngine.GetContainer w instanceId with
  | none => w
  | some container =>
    match container.GetFrontend with
    | none => w
    | some front => w.emit (Event.Frontend front FrontendOp.OnRemoteTerminated)

/-- `AceContainer::OnConfigurationUpdated(instanceId, configuration)`. -/
def AceContainer.OnConfigurationUpdated (w : World) (instanceId : Int) (configuration : String) :
    World :=
  match AceEngine.GetContainer w instanceId with
  | none => w
  | some container =>
    match container.GetFrontend with
    | none => w
    | some front => w.emit (Event.Frontend front (FrontendOp.OnConfigurationUpdated configuration))

/-- `AceContainer::OnNewRequest(instanceId, data)`. -/
def AceContainer.OnNewRequest (w : World) (instanceId : Int) (data : String) : World :=
  match AceEngine.GetContainer w instanceId with
  | none => w
  | some container =>
    match container.GetFrontend with
    | some front => w.emit (Event.Frontend front (FrontendOp.OnNewRequest data))
    | none => w

/-- `AceContainer::RunPage(instanceId, pageId, content, params)`. -/
def AceContainer.RunPage (w : World) (instanceId : Int) (pageId : Int) (content params : String) :
    Bool × World :=
  match AceEngine.GetContainer w instanceId with
  | none => (false, w)
  | some container =>
    match container.GetFrontend with
    | some front => (true, w.emit (Event.Frontend front (FrontendOp.RunPage pageId content params)))
    | none => (false, w)

/-- `AceContainer::PushPage(instanceId, content, params)`. -/
def AceContainer.PushPage (w : World) (instanceId : Int) (content params : String) :
    Bool × World :=
  match AceEngine.GetContainer w instanceId with
  | none => (false, w)
  | some container =>
    match container.GetFrontend with
    | some front => (true, w.emit (Event.Frontend front (FrontendOp.PushPage content params)))
    | none => (false, w)

/-- `AceContainer::UpdatePage(instanceId, pageId, content)`; the body reads
neither `pageId` nor `content`. -/
def AceContainer.UpdatePage (env : Env) (w : World) (instanceId : Int) (_pageId : Int)
    (_content : String) : Bool × World :=
  match AceEngine.GetContainer w instanceId with
  | none => (false, w)
  | some container =>
    match container.GetPipelineContext with
    | none => (false, w)
    | some context =>
      (env.callRouterBackToPopPage context,
        w.emit (Event.Pipeline context PipelineOp.CallRouterBackToPopPage))

/-- `AceContainer::SetFontScale(instanceId, fontScale)`. -/
def AceContainer.SetFontScale (w : World) (instanceId : Int) (fontScale : Scalar) : World :=
  match AceEngine.GetContainer w instanceId with
  | none => w
  | some container =>
    match container.GetPipelineContext with
    | none => w
    | some pipelineContext => w.emit (Event.Pipeline pipelineContext (PipelineOp.SetFontScale fontScale))

/-- Modelled from the spec: `SetWindowModal` is defined in the class header,
outside this file; it sets the container's window-modal configuration. -/
def AceContainer.SetWindowModal (c : AceContainer) (windowModal : Nat) : AceContainer :=
  { c with windowModal_ := windowModal }

/-- Modelled from the spec: `SetColorScheme` is defined in the class header,
outside this file; it sets the container's color-scheme configuration. -/
def AceContainer.SetColorScheme (c : AceContainer) (colorScheme : Nat) : AceContainer :=
  { c with colorScheme_ := colorScheme }

/-- `AceContainer::SetWindowStyle(instanceId, windowModal, colorScheme)`. -/
def AceContainer.SetWindowStyle (w : World) (instanceId : Int) (windowModal colorScheme : Nat) :
    World :=
  match AceEngine.GetContainer w instanceId with
  | none => w
  | some container =>
    let container := container.SetWindowModal windowModal
    let container := container.SetColorScheme colorScheme
    w.store instanceId container

/-! ## Message channel, dump, garbage collection, assets -/

/-- `AceContainer::Dispatch(group, data, id, replyToComponent)`: returns at
once. -/
def AceContainer.Dispatch (_c : AceContainer) (w : World) (_group : String) (_data : List Nat)
    (_id : Int) (_replyToComponent : Bool) : World :=
  w

/-- `AceContainer::DispatchPluginError(callbackId, errorCode, errorMessage)`;
`taskExecutor_` is used unchecked. -/
def AceContainer.DispatchPluginError (c : AceContainer) (w : World) (callbackId errorCode : Int)
    (errorMessage : String) : Except Fault World :=
  match c.GetFrontend with
  | none => Except.ok w
  | some front =>
    match c.taskExecutor_ with
    | none => Except.error (Fault.NullDeref "taskExecutor_")
    | some _ =>
      Except.ok (w.emit (Event.PostTask
        (Task.TransferJsPluginGetError front callbackId errorCode errorMessage)
        TaskType.BACKGROUND))

/-- `AceContainer::Dump(params)`. -/
def AceContainer.Dump (env : Env) (c : AceContainer) (w : World) (params : List String) :
    Bool × World :=
  let viewDumped : Bool × World :=
    match c.aceView_ with
    | some view => (env.viewDump view params, w.emit (Event.View view (ViewOp.Dump params)))
    | none => (false, w)
  if viewDumped.1 then (true, viewDumped.2)
  else
    let w := viewDumped.2
    match c.pipelineContext_ with
    | some context => (true, w.emit (Event.Pipeline context (PipelineOp.Dump params)))
    | none => (false, w)

/-- `AceContainer::TriggerGarbageCollection()`; `taskExecutor_` is used
unchecked. -/
def AceContainer.TriggerGarbageCollection (env : Env) (c : AceContainer) (w : World) :
    Except Fault World :=
  match c.taskExecutor_ with
  | none => Except.error (Fault.NullDeref "taskExecutor_")
  | some _ =>
    let w :=
      if !env.OHOS_PLATFORM || !env.ENABLE_NATIVE_VIEW then
        -- GPU and IO thread is standalone while disable native view
        let w := w.emit (Event.PostTask Task.PurgeMallocCache TaskType.GPU)
        w.emit (Event.PostTask Task.PurgeMallocCache TaskType.IO_)
      else w
    let w := w.emit (Event.PostTask Task.PurgeMallocCache TaskType.UI)
    Except.ok (w.emit (Event.PostTask (Task.WeakFrontendGC c.frontend_) TaskType.JS))

/-- `std::string::rfind` of a one-character pattern: the index of the last
occurrence of `c`, `none` standing for `npos`. -/
def rfind (c : Char) : List Char → Option Nat
  | [] => none
  | x :: xs =>
    match rfind c xs with
    | some i => some (i + 1)
    | none => if x == c then some 0 else none

/-- `std::string::substr(0, pos)`, where `none` stands for `npos`. -/
def substr0 (s : String) (pos : Option Nat) : String :=
  match pos with
  | some n => String.mk (s.data.take n)
  | none => s

/-- `AceContainer::AddAssetPath(instanceId, packagePath, paths)`. The asset
manager is one shared object: what is done to it shows in the container's
`assetManager_`; every asset manager is a `FlutterAssetManager`, so the
`DynamicCast` succeeds. `container->frontend_` is used unchecked. -/
def AceContainer.AddAssetPath (env : Env) (w : World) (instanceId : Int) (packagePath : String)
    (paths : List String) : Except Fault World :=
  match AceEngine.GetContainer w instanceId with
  | none => Except.ok w
  | some container =>
    let got : Except Fault (AceContainer × FlutterAssetManager × World) :=
      match container.assetManager_ with
      | some flutterAssetManager => Except.ok (container, flutterAssetManager, w)
      | none =>
        let (ref, w) := w.alloc
        let flutterAssetManager : FlutterAssetManager :=
          { ref := ref, providers := [], packagePath := "" }
        let container := { container with assetManager_ := some flutterAssetManager }
        if container.type_ ≠ FrontendType.DECLARATIVE_JS then
          match container.frontend_ with
          | none => Except.error (Fault.NullDeref "frontend_")
          | some f =>
            Except.ok (container, flutterAssetManager,
              w.emit (Event.Frontend f (FrontendOp.SetAssetManager (some ref))))
        else Except.ok (container, flutterAssetManager, w)
    match got with
    | Except.error e => Except.error e
    | Except.ok (container, flutterAssetManager, w) =>
      let flutterAssetManager :=
        if !packagePath.isEmpty then
          let assetProvider : FileAssetProvider := { packagePath := packagePath, paths := paths }
          let flutterAssetManager :=
            if env.assetProviderInit packagePath paths then
              { flutterAssetManager with
                providers := flutterAssetManager.providers ++ [assetProvider] }
            else flutterAssetManager
          let absPath := packagePath
          let lastSeperatorPos := rfind '/' absPath.data
          { flutterAssetManager with
            packagePath := (substr0 absPath lastSeperatorPos).append (ASSET_LIBARCH_PATH env) }
        else flutterAssetManager
      let container := { container with assetManager_ := some flutterAssetManager }
      Except.ok (w.store instanceId container)

/-! ## View attachment -/

/-- `AceContainer::InitializeCallback()`: the nine callbacks registered on the
view, each capturing `pipelineContext_`. -/
def AceContainer.InitializeCallback (c : AceContainer) (w : World) : Except Fault World :=
  match c.aceView_ with
  | none => Except.error (Fault.NullDeref "aceView_")
  | some view =>
    let context := c.pipelineContext_
    let w := w.emit (Event.View view (ViewOp.RegisterTouchEventCallback context))
    let w := w.emit (Event.View view (ViewOp.RegisterKeyEventCallback context))
    let w := w.emit (Event.View view (ViewOp.RegisterMouseEventCallback context))
    let w := w.emit (Event.View view (ViewOp.RegisterRotationEventCallback context))
    let w := w.emit (Event.View view (ViewOp.RegisterViewChangeCallback context))
    let w := w.emit (Event.View view (ViewOp.RegisterDensityChangeCallback context))
    let w := w.emit (Event.View view (ViewOp.RegisterSystemBarHeightChangeCallback context))
    let w := w.emit (Event.View view (ViewOp.RegisterSurfaceDestroyCallback context))
    let w := w.emit (Event.View view (ViewOp.RegisterIdleCallback context))
    Except.ok w

/-- The first part of `AceContainer::AttachView`: from `aceView_ = view` up to
and including the branch on `type_` that, for DECLARATIVE_JS, initialises the
Scripting role and the frontend. -/
def AceContainer.attachViewRoles (env : Env) (c : AceContainer) (w : World)
    (view : Option AceView) : Except Fault (AceContainer × AceView × World) :=
  let c := { c with aceView_ := view }
  match c.aceView_ with
  | none => Except.error (Fault.NullDeref "aceView_")
  | some aceView =>
    let instanceId := aceView.instanceId
    if !env.hasDartState instanceId then Except.error (Fault.NullDeref "state")
    else
      match c.taskExecutor_ with
      | none => Except.error (Fault.NullDeref "taskExecutor_")
      | some flutterTaskExecutor =>
        let flutterTaskExecutor := { flutterTaskExecutor with otherThreads := true }
        let c := { c with taskExecutor_ := some flutterTaskExecutor }
        let w := w.emit Event.InitOtherThreads
        let w := w.emit (Event.PostTask (Task.InitForThread c.instanceId_) TaskType.UI)
        if c.type_ = FrontendType.DECLARATIVE_JS then
          -- For DECLARATIVE_JS frontend display UI in JS thread temporarily.
          let flutterTaskExecutor := { flutterTaskExecutor with jsThread := some false }
          let c := { c with taskExecutor_ := some flutterTaskExecutor }
          let w := w.emit (Event.InitJsThread false)
          match c.InitializeFrontend env w with
          | Except.error e => Except.error e
          | Except.ok (c, w) =>
            match c.GetFrontend with
            | some front =>
              let w := w.emit (Event.Frontend front (FrontendOp.UpdateState FrontendState.ON_CREATE))
              let w := w.emit (Event.Frontend front (FrontendOp.SetJsMessageDispatcher c.instanceId_))
              let w := w.emit (Event.Frontend front
                (FrontendOp.SetAssetManager (c.assetManager_.map (·.ref))))
              Except.ok (c, aceView, w)
            | none => Except.ok (c, aceView, w)
        else if c.type_ ≠ FrontendType.JS_CARD then
          Except.ok (c, aceView, w.emit (Event.View aceView ViewOp.SetCreateTime))
        else Except.ok (c, aceView, w)

/-- `AceContainer::AttachView(window, view, density, width, height)`.
`frontend_` is used unchecked in the last but one statement. -/
def AceContainer.AttachView (env : Env) (c : AceContainer) (w : World) (window : ObjRef)
    (view : Option AceView) (density : Scalar) (width height : Int) :
    Except Fault (AceContainer × World) :=
  match c.attachViewRoles env w view with
  | Except.error e => Except.error e
  | Except.ok (c, aceView, w) =>
    let instanceId := aceView.instanceId
    let w := w.emit (Event.View aceView ViewOp.GetPlatformResRegister)
    let c := { c with resRegister_ := env.platformResRegister aceView }
    let (context, w) := w.alloc
    let w := w.emit (Event.NewPipeline context window (c.assetManager_.map (·.ref))
      c.resRegister_ c.frontend_ instanceId)
    let c := { c with pipelineContext_ := some context }
    let w := w.emit (Event.Pipeline context (PipelineOp.SetRootSize density width height))
    let (textFieldManager, w) := w.alloc
    let w := w.emit (Event.Pipeline context (PipelineOp.SetTextFieldManager textFieldManager))
    let w := w.emit (Event.Pipeline context (PipelineOp.SetIsRightToLeft env.isRightToLeft))
    let w := w.emit (Event.Pipeline context (PipelineOp.SetWindowModal c.windowModal_))
    let w := w.emit (Event.View aceView ViewOp.GetDrawDelegate)
    let w := w.emit (Event.Pipeline context PipelineOp.SetDrawDelegate)
    match c.InitializeCallback w with
    | Except.error e => Except.error e
    | Except.ok w =>
      let w := w.emit (Event.Pipeline context (PipelineOp.SetFinishEventHandler c.instanceId_))
      let w := w.emit (Event.Pipeline context (PipelineOp.SetStatusBarEventHandler c.instanceId_))
      let w := w.emit Event.InitDeviceType
      -- Load custom style at UI thread before frontend attach
      let (themeManager, w) := w.alloc
      let w := w.emit (Event.Pipeline context (PipelineOp.SetThemeManager themeManager))
      let w := w.emit (Event.ThemeInitResource themeManager)
      let w := w.emit (Event.PostTask
        (Task.LoadCustomTheme themeManager (c.assetManager_.map (·.ref)) c.colorScheme_)
        TaskType.UI)
      let w := w.emit (Event.PostTask (Task.SetupRootElement context) TaskType.UI)
      let w := w.emit (Event.View aceView ViewOp.Launch)
      match c.frontend_ with
      | none => Except.error (Fault.NullDeref "frontend_")
      | some f =>
        let w := w.emit (Event.Frontend f (FrontendOp.AttachPipelineContext context))
        Except.ok (c, w.emit (Event.RegisterToWatchDog instanceId))

/-- `AceContainer::SetView(view, density, width, height)`. -/
def AceContainer.SetView (env : Env) (w : World) (view : Option AceView) (density : Scalar)
    (width height : Int) : Except Fault World :=
  match view with
  | none => Except.ok w
  | some v =>
    match AceEngine.GetContainer w v.instanceId with
    | none => Except.ok w
    | some container =>
      match env.platformWindowCreate v with
      | none => Except.ok w
      | some platformWindow =>
        let window := platformWindow
        match container.AttachView env w window view density width height with
        | Except.error e => Except.error e
        | Except.ok (container, w) => Except.ok (w.store v.instanceId container)

/-! ## The platform event callbacks registered by `InitializeCallback`

Each is the body of the closure of the same name; `context` is the pipeline the
closure captured, and the task executor is the one that pipeline was built
with. -/

/-- Modelled from the spec: `TaskExecutor::PostSyncTask` is defined outside
this file. The caller blocks until the task has completed and then sees what
the task wrote into its captured output; `ran` is false when the role's
context has been torn down, in which case the post is a no-op and the output
keeps the value it had. -/
def postSyncResult (ran : Bool) (initial produced : Bool) : Bool :=
  if ran then produced else initial

/-- The closure `touchEventCallback`. -/
def touchEventCallback (context : PipelineRef) (w : World) (event : TouchPoint) : World :=
  w.emit (Event.PostTask (Task.OnTouchEvent context event) TaskType.UI)

/-- The closure `keyEventCallback`. -/
def keyEventCallback (env : Env) (context : PipelineRef) (ran : Bool) (w : World)
    (event : KeyEvent) : Bool × World :=
  let result := false
  let w := w.emit (Event.PostSyncTask (Task.OnKeyEvent context event) TaskType.UI)
  let result := postSyncResult ran result (env.pipelineOnKeyEvent context event)
  (result, w)

/-- The closure `mouseEventCallback`. -/
def mouseEventCallback (context : PipelineRef) (w : World) (event : MouseEvent) : World :=
  w.emit (Event.PostTask (Task.OnMouseEvent context event) TaskType.UI)

/-- The closure `rotationEventCallback`. -/
def rotationEventCallback (env : Env) (context : PipelineRef) (ran : Bool) (w : World)
    (event : RotationEvent) : Bool × World :=
  let result := false
  let w := w.emit (Event.PostSyncTask (Task.OnRotationEvent context event) TaskType.UI)
  let result := postSyncResult ran result (env.pipelineOnRotationEvent context event)
  (result, w)

/-- The closure `viewChangeCallback`. -/
def viewChangeCallback (context : PipelineRef) (w : World) (width height : Int) : World :=
  w.emit (Event.PostTask (Task.OnSurfaceChanged context width height) TaskType.UI)

/-- The closure `densityChangeCallback`. -/
def densityChangeCallback (context : PipelineRef) (w : World) (density : Scalar) : World :=
  w.emit (Event.PostTask (Task.OnSurfaceDensityChanged context density) TaskType.UI)

/-- The closure `systemBarHeightChangeCallback`. -/
def systemBarHeightChangeCallback (context : PipelineRef) (w : World)
    (statusBar navigationBar : Scalar) : World :=
  w.emit (Event.PostTask (Task.OnSystemBarHeightChanged context statusBar navigationBar)
    TaskType.UI)

/-- The closure `surfaceDestroyCallback`. -/
def surfaceDestroyCallback (context : PipelineRef) (w : World) : World :=
  w.emit (Event.PostTask (Task.OnSurfaceDestroyed context) TaskType.UI)

/-- The closure `idleCallback`. -/
def idleCallback (context : PipelineRef) (w : World) (deadline : Int) : World :=
  w.emit (Event.PostTask (Task.OnIdle context deadline) TaskType.UI)

/-! ## Closures that hold weak handles -/

/-- Modelled from the spec: `WeakPtr::Upgrade` is defined outside this file. A
weak handle is upgraded at the use site to the object it refers to, or to
nothing when it was empty or the object has expired; `alive` says which
objects have not expired. -/
def WeakPtr.Upgrade (weak : Option Nat) (alive : Nat → Bool) : Option Nat :=
  match weak with
  | some obj => if alive obj then some obj else none
  | none => none

/-- The body of the JS-role closure posted by `TriggerGarbageCollection`, which
captured `frontend = WeakPtr<Frontend>(frontend_)`. -/
def runWeakFrontendGC (frontend : Option FrontendRef) (alive : FrontendRef → Bool) (w : World) :
    World :=
  let sp := WeakPtr.Upgrade frontend alive
  let w :=
    match sp with
    | some f => w.emit (Event.Frontend f FrontendOp.TriggerGarbageCollection)
    | none => w
  w.emit Event.PurgeMallocCache

/-- The closure `finishEventHandler` installed by `AttachView`. It captured a
weak handle to the container; `upgraded` is what `weak.Upgrade()` yields when
the handler is invoked: the container as it then is, or nothing when it has
expired. -/
def finishEventHandler (upgraded : Option AceContainer) (w : World) : World :=
  match upgraded with
  | none => w
  | some container =>
    match container.GetPipelineContext with
    | none => w
    | some _ =>
      w.emit (Event.PostTask (Task.ContainerOnFinish container.instanceId_) TaskType.PLATFORM)

/-- The body of the Platform-role closure posted by `finishEventHandler`;
`upgraded` is what its own `weak.Upgrade()` yields when the task runs. -/
def runFinishTask (upgraded : Option AceContainer) (w : World) : World :=
  match upgraded with
  | none => w
  | some container => w.emit (Event.ContainerOnFinish container.instanceId_)

/-- The closure `setStatusBarEventHandler` installed by `AttachView`, invoked
with the value of the colour. -/
def setStatusBarEventHandler (upgraded : Option AceContainer) (w : World) (color : Nat) : World :=
  match upgraded with
  | none => w
  | some container =>
    match container.GetPipelineContext with
    | none => w
    | some _ =>
      w.emit (Event.PostTask (Task.StatusBarBgColorChanged container.instanceId_ color)
        TaskType.PLATFORM)

/-- The body of the Platform-role closure posted by `setStatusBarEventHandler`;
`upgraded` is what its own `weak.Upgrade()` yields when the task runs. -/
def runStatusBarTask (upgraded : Option AceContainer) (color : Nat) (w : World) : World :=
  match upgraded with
  | none => w
  | some container =>
    match container.platformEventCallback_ with
    | some callback => w.emit (Event.OnStatusBarBgColorChanged callback color)
    | none => w

/-! ## Observations on traces -/

/-- The engine library an effect binds: the library named by a
`CreateJsEngine` call, nothing for any other effect. -/
def Event.engineLibrary : Event → Option String
  | Event.CreateJsEngine _ lib _ _ => some lib
  | _ => none

/-- The effects a run added: the trace after it, without the trace before
it. -/
def addedTrace (before after : World) : List Event :=
  after.trace.drop before.trace.length

/-- The role an effect posts a task to, for `PostTask` and `PostSyncTask`;
nothing for any other effect. -/
def Event.postedRole : Event → Option TaskType
  | Event.PostTask _ role => some role
  | Event.PostSyncTask _ role => some role
  | _ => none

/-- The pipeline an effect constructs, nothing for any other effect. -/
def Event.newPipeline : Event → Option PipelineRef
  | Event.NewPipeline context _ _ _ _ _ => some context
  | _ => none

/-- The frontend an effect constructs, nothing for any other effect. -/
def Event.newFrontend : Event → Option FrontendRef
  | Event.NewFrontend frontend _ => some frontend
  | _ => none

/-! ## Sequences of calls -/

/-- One call of the embedding layer on the process-wide state: a static entry
point with its arguments, or `Destroy()` on the container registered under an
instance id. -/
inductive Call where
  | CreateContainer (instanceId : Int) (type : FrontendType) (isArkApp : Bool)
      (aceAbility : Option AceAbility) (callback : Option ObjRef)
  | SetView (view : Option AceView) (density : Scalar) (width height : Int)
  | AddAssetPath (instanceId : Int) (packagePath : String) (paths : List String)
  | OnShow (instanceId : Int)
  | OnHide (instanceId : Int)
  | OnActive (instanceId : Int)
  | OnInactive (instanceId : Int)
  | OnBackPressed (instanceId : Int)
  | OnStartContinuation (instanceId : Int)
  | OnSaveData (instanceId : Int)
  | OnRestoreData (instanceId : Int) (data : String)
  | OnCompleteContinuation (instanceId : Int) (result : Int)
  | OnRemoteTerminated (instanceId : Int)
  | OnConfigurationUpdated (instanceId : Int) (configuration : String)
  | OnNewRequest (instanceId : Int) (data : String)
  | RunPage (instanceId pageId : Int) (content params : String)
  | PushPage (instanceId : Int) (content params : String)
  | UpdatePage (instanceId pageId : Int) (content : String)
  | SetFontScale (instanceId : Int) (fontScale : Scalar)
  | SetWindowStyle (instanceId : Int) (windowModal colorScheme : Nat)
  | Destroy (instanceId : Int)
  | DestroyContainer (instanceId : Int)
deriving DecidableEq, Repr

/-- The world after one call; a fault of the call is a fault of the run. A
returned value is dropped. -/
def Call.run (env : Env) (w : World) : Call → Except Fault World
  | Call.CreateContainer instanceId type isArkApp aceAbility callback =>
    AceContainer.CreateContainer env w instanceId type isArkApp aceAbility callback
  | Call.SetView view density width height => AceContainer.SetView env w view density width height
  | Call.AddAssetPath instanceId packagePath paths =>
    AceContainer.AddAssetPath env w instanceId packagePath paths
  | Call.OnShow instanceId => Except.ok (AceContainer.OnShow env w instanceId)
  | Call.OnHide instanceId => Except.ok (AceContainer.OnHide env w instanceId)
  | Call.OnActive instanceId => Except.ok (AceContainer.OnActive w instanceId)
  | Call.OnInactive instanceId => Except.ok (AceContainer.OnInactive w instanceId)
  | Call.OnBackPressed instanceId => Except.ok (AceContainer.OnBackPressed env w instanceId).2
  | Call.OnStartContinuation instanceId =>
    Except.ok (AceContainer.OnStartContinuation env w instanceId).2
  | Call.OnSaveData instanceId => Except.ok (AceContainer.OnSaveData env w instanceId).2
  | Call.OnRestoreData instanceId data =>
    Except.ok (AceContainer.OnRestoreData env w instanceId data).2
  | Call.OnCompleteContinuation instanceId result =>
    Except.ok (AceContainer.OnCompleteContinuation w instanceId result)
  | Call.OnRemoteTerminated instanceId => Except.ok (AceContainer.OnRemoteTerminated w instanceId)
  | Call.OnConfigurationUpdated instanceId configuration =>
    Except.ok (AceContainer.OnConfigurationUpdated w instanceId configuration)
  | Call.OnNewRequest instanceId data => Except.ok (AceContainer.OnNewRequest w instanceId data)
  | Call.RunPage instanceId pageId content params =>
    Except.ok (AceContainer.RunPage w instanceId pageId content params).2
  | Call.PushPage instanceId content params =>
    Except.ok (AceContainer.PushPage w instanceId content params).2
  | Call.UpdatePage instanceId pageId content =>
    Except.ok (AceContainer.UpdatePage env w instanceId pageId content).2
  | Call.SetFontScale instanceId fontScale =>
    Except.ok (AceContainer.SetFontScale w instanceId fontScale)
  | Call.SetWindowStyle instanceId windowModal colorScheme =>
    Except.ok (AceContainer.SetWindowStyle w instanceId windowModal colorScheme)
  | Call.Destroy instanceId =>
    match AceEngine.GetContainer w instanceId with
    | none => Except.ok w
    | some container =>
      let (container, w) := container.Destroy w
      Except.ok (w.store instanceId container)
  | Call.DestroyContainer instanceId => Except.ok (AceContainer.DestroyContainer w instanceId)

/-- The world after a sequence of calls, run in order; the run stops at the
first fault. -/
def runCalls (env : Env) (w : World) : List Call → Except Fault World
  | [] => Except.ok w
  | call :: calls =>
    match call.run env w with
    | Except.error e => Except.error e
    | Except.ok w1 => runCalls env w1 calls

/-- The property of C25 for one container: it holds a Pipeline only if it
holds a Frontend. -/
def AceContainer.pipelineHasFrontend (c : AceContainer) : Bool :=
  !c.pipelineContext_.isSome || c.frontend_.isSome

/-- The property of C25 for a world: every registered container holds a
Pipeline only if it holds a Frontend. -/
def World.pipelinesHaveFrontends (w : World) : Bool :=
  w.registry.all (fun e => e.2.pipelineHasFrontend)

/-- Whether an effect delivers the creation to a frontend: the call
`UpdateState(ON_CREATE)` or the call `SetJsMessageDispatcher`. -/
def Event.isCreateDelivery : Event → Bool
  | Event.Frontend _ (FrontendOp.UpdateState FrontendState.ON_CREATE) => true
  | Event.Frontend _ (FrontendOp.SetJsMessageDispatcher _) => true
  | _ => false

end OHOS.Ace.Platform

namespace OHOS.Ace.Framework

/-! ## `JsInspectorManager::ConvertStrToPropertyType`
(`adapter/preview/inspector/js_inspector_manager.cpp`)

A `std::string` is the list of its `char`s. -/

/-- The character class `[A-Z]` of the regular expression. -/
def isUpperAZ (c : Char) : Bool :=
  decide ('A' ≤ c) && decide (c ≤ 'Z')

/-- `::tolower` in the "C" locale: the letters A to Z go to a to z, every other
character stays. -/
def tolower (c : Char) : Char :=
  if isUpperAZ c then Char.ofNat (c.toNat + 32) else c

/-- `std::regex_replace(s, std::regex("([A-Z])"), "-$1")`: every match is one
character of `[A-Z]`; it is replaced by '-' followed by group 1, the matched
character, and the text between matches is copied. -/
def regexReplaceUpper : List Char → List Char
  | [] => []
  | c :: cs =>
    if isUpperAZ c then '-' :: c :: regexReplaceUpper cs else c :: regexReplaceUpper cs

/-- `JsInspectorManager::ConvertStrToPropertyType(typeValue)`. -/
def JsInspectorManager.ConvertStrToPropertyType (typeValue : String) : String :=
  let dstStr := String.mk (regexReplaceUpper typeValue.data)
  let dstStr := String.mk (dstStr.data.map tolower)
  dstStr

/-- Follows the spec's words, for comparison with the code: `s` with each
uppercase letter `c` replaced by '-' followed by the lowercase of `c`, and
every other character unchanged. -/
def dashLowercase (s : String) : String :=
  String.mk (s.data.flatMap (fun c => if isUpperAZ c then ['-', tolower c] else [c]))

/-! ## `JSWeb::Create`
(`frameworks/bridge/declarative_frontend/jsview/js_web.cpp`) -/

/-- Handle of a JS value (`JSRef<JSVal>`). -/
abbrev JSValue := Nat

/-- What the JS binding layer, declared outside this file, reports about JS
values. -/
structure JsBinding where
  /-- `value->IsObject()`. -/
  isObject : JSValue → Bool
  /-- `object->GetProperty(name)`. -/
  getProperty : JSValue → String → JSValue
  /-- `ParseJsMedia(value, result)`: what it stores in `result` when it returns
  true, `none` when it returns false. -/
  parseJsMedia : JSValue → Option String
  /-- `JSRef<JSObject>::Cast(value)->Unwrap<JSWebController>()`: `none` when
  null, else what `controller->GetController()` returns (a handle or null). -/
  unwrapWebController : JSValue → Option (Option Nat)

/-- A `WebComponent`: its source and its web controller. -/
structure WebComponent where
  src : String
  webController : Option Nat
deriving DecidableEq, Repr

/-- What `JSWeb::Create` acts on: the components pushed on the view stack
(`ViewStackProcessor`), oldest first, and the arguments of the
`JSInteractableView::SetFocusNode` calls. -/
structure ViewState where
  stack : List WebComponent
  focusNode : List Bool
deriving DecidableEq, Repr

/-- The constant `std::string::npos` for a 64-bit `size_t`. -/
def npos : Nat := 2 ^ 64 - 1

/-- `std::string::find_first_of("/")` for a one-character set: the index of the
first occurrence of `c`, `npos` when there is none. -/
def find_first_of (c : Char) : List Char → Nat
  | [] => npos
  | x :: xs =>
    if x == c then 0
    else
      let r := find_first_of c xs
      if r = npos then npos else r + 1

/-- The conversion of a `size_t` to `int`: the value modulo 2^32, read as a
signed 32-bit number. -/
def toInt32 (n : Nat) : Int :=
  if n % 2 ^ 32 < 2 ^ 31 then ((n % 2 ^ 32 : Nat) : Int) else ((n % 2 ^ 32 : Nat) : Int) - 2 ^ 32

/-- The statements of `JSWeb::Create` that compute `dstSrc` from the parsed
`webSrc`: `int np = webSrc.find_first_of("/")`, then `dstSrc = webSrc` when
`np < 0` and `dstSrc = webSrc.erase(np, 1)` otherwise. -/
def JSWeb.dstSrc (webSrc : String) : String :=
  let np : Int := toInt32 (find_first_of '/' webSrc.data)
  if np < 0 then webSrc
  else String.mk (webSrc.data.eraseIdx np.toNat)

/-- `JSWeb::Create(info)`; `info` is the list of the call's arguments. -/
def JSWeb.Create (js : JsBinding) (info : List JSValue) (st : ViewState) : ViewState :=
  match info with
  | [] => st
  | info0 :: _ =>
    if !js.isObject info0 then st
    else
      let paramObject := info0
      let srcValue := js.getProperty paramObject "src"
      match js.parseJsMedia srcValue with
      | none => st
      | some webSrc =>
        let dstSrc := JSWeb.dstSrc webSrc
        let webComponent : WebComponent := { src := dstSrc, webController := none }
        let webComponent := { webComponent with src := dstSrc }
        let controllerObj := js.getProperty paramObject "controller"
        if !js.isObject controllerObj then st
        else
          let webComponent :=
            match js.unwrapWebController controllerObj with
            | some controller => { webComponent with webController := controller }
            | none => webComponent
          { stack := st.stack ++ [webComponent], focusNode := st.focusNode ++ [true] }

/-- A binding in which value 1 is the parameter object, value 2 its `src`
(the string "a/b/c"), value 3 its `controller` (an object wrapping web
controller 7), and every other value is not an object and does not parse. -/
def Sample.binding : JsBinding :=
  { isObject := fun v => v == 1 || v == 3,
    getProperty := fun v name =>
      if v == 1 && name == "src" then 2 else if v == 1 && name == "controller" then 3 else 0,
    parseJsMedia := fun v => if v == 2 then some "a/b/c" else none,
    unwrapWebController := fun v => if v == 3 then some (some 7) else none }

end OHOS.Ace.Framework

namespace OHOS.Ace.Platform

/-! ## Concrete states -/

/-- A concrete environment: ARM64 build of the OHOS platform with native view,
every collaborator succeeding. -/
def Sample.env : Env :=
  { INSTANCE_ID_PLATFORM := -2, WEARABLE_PRODUCT := false, ARM64 := true, OHOS_PLATFORM := true,
    ENABLE_NATIVE_VIEW := true, platformWindowCreate := fun v => some (1000 + v.ref),
    platformResRegister := fun v => some (2000 + v.ref),
    hasDartState := fun _ => true, isNeedDebugBreakPoint := false, isDebugVersion := false,
    isRightToLeft := false, callRouterBackToPopPage := fun _ => true,
    frontOnStartContinuation := fun _ => true, frontOnSaveData := fun _ _ => "saved",
    frontOnRestoreData := fun _ _ => true, viewDump := fun _ _ => false,
    assetProviderInit := fun _ _ => true, pipelineOnKeyEvent := fun _ e => e.raw == 13,
    pipelineOnRotationEvent := fun _ _ => true }

/-- The world before any container is created. -/
def Sample.empty : World := { registry := [], trace := [], nextObj := 0 }

/-- An ability with ability info that is not a launcher ability. -/
def Sample.ability : AceAbility := { ref := 7, info := some { isLauncherAbility := false } }

/-- The view of instance 1. -/
def Sample.view : AceView := { ref := 5, instanceId := 1 }

/-- A live JS container of instance 1 with frontend 0, pipeline 2 and view
`Sample.view` attached. -/
def Sample.live : AceContainer :=
  { instanceId_ := 1, type_ := FrontendType.JS, isArkApp_ := false,
    aceAbility_ := some Sample.ability, platformEventCallback_ := some 9,
    taskExecutor_ := some { platformThread := true, jsThread := some true, otherThreads := true },
    frontend_ := some 0, pipelineContext_ := some 2, assetManager_ := none,
    resRegister_ := some 2005, aceView_ := some Sample.view, windowModal_ := 0, colorScheme_ := 0 }

/-- A world whose registry holds `Sample.live` under id 1. -/
def Sample.liveWorld : World := { registry := [(1, Sample.live)], trace := [], nextObj := 5 }

/-- A declarative container as `CreateContainer` leaves it: no frontend, no
Scripting role yet. -/
def Sample.declarative : AceContainer :=
  { instanceId_ := 1, type_ := FrontendType.DECLARATIVE_JS, isArkApp_ := false,
    aceAbility_ := some Sample.ability, platformEventCallback_ := some 9,
    taskExecutor_ := some { platformThread := true, jsThread := none, otherThreads := false },
    frontend_ := none, pipelineContext_ := none, assetManager_ := none,
    resRegister_ := none, aceView_ := none, windowModal_ := 0, colorScheme_ := 0 }


/-- A JS container of instance 1 as `CreateContainer` leaves it: frontend 0, no
view attached, no pipeline. -/
def Sample.created : AceContainer :=
  { instanceId_ := 1, type_ := FrontendType.JS, isArkApp_ := false,
    aceAbility_ := some Sample.ability, platformEventCallback_ := some 9,
    taskExecutor_ := some { platformThread := true, jsThread := some true, otherThreads := false },
    frontend_ := some 0, pipelineContext_ := none, assetManager_ := none,
    resRegister_ := none, aceView_ := none, windowModal_ := 0, colorScheme_ := 0 }

/-- A world whose registry holds `Sample.created` under id 1: a JS container
before any view or asset path. -/
def Sample.createdWorld : World := { registry := [(1, Sample.created)], trace := [], nextObj := 2 }

/-- A sequence of calls: create a JS container for id 1, attach the sample
view, show it, hide it. -/
def Sample.calls : List Call :=
  [ Call.CreateContainer 1 FrontendType.JS false (some Sample.ability) (some 9),
    Call.SetView (some Sample.view) (Scalar.mk 0) 10 20,
    Call.OnShow 1,
    Call.OnHide 1 ]

/-- The world the sample calls lead to from the empty world. -/
def Sample.attachedWorld : World :=
  match runCalls Sample.env Sample.empty Sample.calls with
  | Except.ok w => w
  | Except.error _ => Sample.empty

/-! ## Theorems -/

/-- The sample live world is what the code produces: creating a JS container
for id 1 in the empty world and attaching `Sample.view` yields the registry of
`Sample.liveWorld`. -/
theorem Sample.liveWorld_reachable :
    ((AceContainer.CreateContainer Sample.env Sample.empty 1 FrontendType.JS false
        (some Sample.ability) (some 9)).toOption.bind
      (fun w => (AceContainer.SetView Sample.env w (some Sample.view) (Scalar.mk 0) 10 20).toOption)).map
      (fun w => (w.registry, w.nextObj)) = some (Sample.liveWorld.registry, Sample.liveWorld.nextObj) := by
  decide

/-- Looking an id up after `RemoveContainer` finds nothing. -/
theorem AceEngine.GetContainer_RemoveContainer (w : World) (instanceId : Int) :
    AceEngine.GetContainer (AceEngine.RemoveContainer w instanceId) instanceId = none := by
  simp only [AceEngine.GetContainer, AceEngine.RemoveContainer, World.emit, Option.map_eq_none']
  rw [List.find?_eq_none]
  intro e he
  have := (List.mem_filter.mp he).2
  simpa using this

/-- C1: for a registered container that holds a Pipeline, a Frontend, a task
executor and the attached view, `DestroyContainer(id)` adds to the trace, in
this order, exactly: the Pipeline's destroy task posted to the UI role, the
Frontend's destroy task posted to the JS role, a blocking barrier on the UI
role, a blocking barrier on the JS role, the release of the view, and the
removal from the registry; afterwards the id is no longer registered. -/
theorem DestroyContainer_effect_order (w : World) (instanceId : Int) (c : AceContainer)
    (p : PipelineRef) (f : FrontendRef) (ex : TaskExecutor) (v : AceView)
    (hget : AceEngine.GetContainer w instanceId = some c)
    (hp : c.pipelineContext_ = some p) (hf : c.frontend_ = some f)
    (he : c.taskExecutor_ = some ex) (hv : c.aceView_ = some v) :
    (AceContainer.DestroyContainer w instanceId).trace = w.trace ++
      [ Event.PostTask (Task.PipelineDestroy (some p)) TaskType.UI,
        Event.PostTask (Task.FrontendDestroy (some f)) TaskType.JS,
        Event.PostSyncTask Task.WaitUI TaskType.UI,
        Event.PostSyncTask Task.WaitJS TaskType.JS,
        Event.DeleteView v,
        Event.RemoveContainer instanceId ]
    ∧ AceEngine.GetContainer (AceContainer.DestroyContainer w instanceId) instanceId = none := by
  constructor
  · simp [AceContainer.DestroyContainer, hget, AceContainer.Destroy, hp, hf, he, hv,
      AceContainer.GetTaskExecutor, AceContainer.DestroyView, World.emit, World.store,
      AceEngine.RemoveContainer]
  · simp only [AceContainer.DestroyContainer, hget]
    exact AceEngine.GetContainer_RemoveContainer _ _

/-- Witness of C1 on the sample live world. -/
theorem DestroyContainer_effect_order_witness :
    (AceContainer.DestroyContainer Sample.liveWorld 1).trace = Sample.liveWorld.trace ++
      [ Event.PostTask (Task.PipelineDestroy (some 2)) TaskType.UI,
        Event.PostTask (Task.FrontendDestroy (some 0)) TaskType.JS,
        Event.PostSyncTask Task.WaitUI TaskType.UI,
        Event.PostSyncTask Task.WaitJS TaskType.JS,
        Event.DeleteView Sample.view,
        Event.RemoveContainer 1 ]
    ∧ AceEngine.GetContainer (AceContainer.DestroyContainer Sample.liveWorld 1) 1 = none :=
  DestroyContainer_effect_order Sample.liveWorld 1 Sample.live 2 0
    { platformThread := true, jsThread := some true, otherThreads := true } Sample.view
    (by decide) rfl rfl rfl rfl

/-- C2: for a container that holds a Pipeline, a Frontend and a task executor,
after `Destroy()` the container's own Pipeline and Frontend fields are empty,
and the two tasks it posted hold exactly the Pipeline and the Frontend the
container held before the call. -/
theorem Destroy_swaps_before_post (c : AceContainer) (w : World) (p : PipelineRef)
    (f : FrontendRef) (ex : TaskExecutor)
    (hp : c.pipelineContext_ = some p) (hf : c.frontend_ = some f)
    (he : c.taskExecutor_ = some ex) :
    (c.Destroy w).1.pipelineContext_ = none ∧ (c.Destroy w).1.frontend_ = none ∧
    (c.Destroy w).2.trace = w.trace ++
      [ Event.PostTask (Task.PipelineDestroy (some p)) TaskType.UI,
        Event.PostTask (Task.FrontendDestroy (some f)) TaskType.JS ] := by
  simp [AceContainer.Destroy, hp, hf, he, World.emit]

/-- Witness of C2 on the sample live container. -/
theorem Destroy_swaps_before_post_witness :
    (Sample.live.Destroy Sample.liveWorld).1.pipelineContext_ = none ∧
    (Sample.live.Destroy Sample.liveWorld).1.frontend_ = none ∧
    (Sample.live.Destroy Sample.liveWorld).2.trace = Sample.liveWorld.trace ++
      [ Event.PostTask (Task.PipelineDestroy (some 2)) TaskType.UI,
        Event.PostTask (Task.FrontendDestroy (some 0)) TaskType.JS ] :=
  Destroy_swaps_before_post Sample.live Sample.liveWorld 2 0
    { platformThread := true, jsThread := some true, otherThreads := true } rfl rfl rfl

/-- C3: for every container state, a second `Destroy()` right after the first
changes nothing: the container and the world (hence the tasks posted) after two
calls in sequence are those after one call, and in whatever world the second
call runs it posts no task and leaves the container as the first call left
it. -/
theorem Destroy_idempotent (c : AceContainer) (w : World) :
    (c.Destroy w).1.Destroy (c.Destroy w).2 = c.Destroy w ∧
    ∀ w2 : World, (c.Destroy w).1.Destroy w2 = ((c.Destroy w).1, w2) := by
  unfold AceContainer.Destroy
  cases hp : c.pipelineContext_ <;> cases he : c.taskExecutor_ <;> simp [hp, he]

/-- C4: for every registered instance id, after `DestroyContainer(id)`
`GetContainer(id)` returns none, and a following `DestroyContainer(id)` leaves
the world as it is: it posts no task, releases no view and does not change the
registry. -/
theorem DestroyContainer_then_absent (w : World) (instanceId : Int) (c : AceContainer)
    (hget : AceEngine.GetContainer w instanceId = some c) :
    AceContainer.GetContainer (AceContainer.DestroyContainer w instanceId) instanceId = none ∧
    AceContainer.DestroyContainer (AceContainer.DestroyContainer w instanceId) instanceId
      = AceContainer.DestroyContainer w instanceId := by
  have h : AceEngine.GetContainer (AceContainer.DestroyContainer w instanceId) instanceId
      = none := by
    simp only [AceContainer.DestroyContainer, hget]
    exact AceEngine.GetContainer_RemoveContainer _ _
  constructor
  · simp [AceContainer.GetContainer, h]
  · generalize AceContainer.DestroyContainer w instanceId = w1 at h
    simp [AceContainer.DestroyContainer, h]

/-- Witness of C4 on the sample live world. -/
theorem DestroyContainer_then_absent_witness :
    AceContainer.GetContainer (AceContainer.DestroyContainer Sample.liveWorld 1) 1 = none ∧
    AceContainer.DestroyContainer (AceContainer.DestroyContainer Sample.liveWorld 1) 1
      = AceContainer.DestroyContainer Sample.liveWorld 1 :=
  DestroyContainer_then_absent Sample.liveWorld 1 Sample.live (by decide)

/-- C5: for an instance id absent from the registry, each static entry point
returns the world it was given (so the registry and every container are
unchanged, no task is posted and no Frontend or Pipeline operation is invoked),
and those that return a boolean return false. -/
theorem static_entry_points_absent (env : Env) (w : World) (instanceId : Int)
    (habsent : AceEngine.GetContainer w instanceId = none) :
    AceContainer.OnShow env w instanceId = w ∧
    AceContainer.OnHide env w instanceId = w ∧
    AceContainer.OnActive w instanceId = w ∧
    AceContainer.OnInactive w instanceId = w ∧
    AceContainer.OnBackPressed env w instanceId = (false, w) ∧
    (∀ pageId content params, AceContainer.RunPage w instanceId pageId content params = (false, w)) ∧
    (∀ content params, AceContainer.PushPage w instanceId content params = (false, w)) ∧
    (∀ pageId content, AceContainer.UpdatePage env w instanceId pageId content = (false, w)) ∧
    AceContainer.OnStartContinuation env w instanceId = (false, w) ∧
    (∀ data, AceContainer.OnRestoreData env w instanceId data = (false, w)) ∧
    (∀ result, AceContainer.OnCompleteContinuation w instanceId result = w) ∧
    AceContainer.OnRemoteTerminated w instanceId = w ∧
    (∀ configuration, AceContainer.OnConfigurationUpdated w instanceId configuration = w) ∧
    (∀ data, AceContainer.OnNewRequest w instanceId data = w) ∧
    (∀ fontScale, AceContainer.SetFontScale w instanceId fontScale = w) ∧
    (∀ windowModal colorScheme,
      AceContainer.SetWindowStyle w instanceId windowModal colorScheme = w) ∧
    (∀ packagePath paths,
      AceContainer.AddAssetPath env w instanceId packagePath paths = Except.ok w) ∧
    AceContainer.DestroyContainer w instanceId = w := by
  simp [AceContainer.OnShow, AceContainer.OnHide, AceContainer.OnActive, AceContainer.OnInactive,
    AceContainer.OnBackPressed, AceContainer.RunPage, AceContainer.PushPage,
    AceContainer.UpdatePage, AceContainer.OnStartContinuation, AceContainer.OnRestoreData,
    AceContainer.OnCompleteContinuation, AceContainer.OnRemoteTerminated,
    AceContainer.OnConfigurationUpdated, AceContainer.OnNewRequest, AceContainer.SetFontScale,
    AceContainer.SetWindowStyle, AceContainer.AddAssetPath, AceContainer.DestroyContainer,
    habsent]

/-- Witness of C5: id 2 is absent from the sample live world. -/
theorem static_entry_points_absent_witness :
    AceEngine.GetContainer Sample.liveWorld 2 = none ∧
    AceContainer.OnShow Sample.env Sample.liveWorld 2 = Sample.liveWorld ∧
    AceContainer.OnBackPressed Sample.env Sample.liveWorld 2 = (false, Sample.liveWorld) ∧
    AceContainer.DestroyContainer Sample.liveWorld 2 = Sample.liveWorld :=
  have h := static_entry_points_absent Sample.env Sample.liveWorld 2 (by decide)
  ⟨by decide, h.1, h.2.2.2.2.1, h.2.2.2.2.2.2.2.2.2.2.2.2.2.2.2.2.2⟩

/-- C6, as stated, fails: in the empty world, where id 1 is absent,
`OnSaveData(1)` does not return the empty string. -/
theorem OnSaveData_absent_not_empty :
    AceEngine.GetContainer Sample.empty 1 = none ∧
    (AceContainer.OnSaveData Sample.env Sample.empty 1).1 ≠ "" := by
  decide

/-- C6, amended: for an instance id that is absent from the registry, or whose
container has no Frontend, `OnSaveData(id)` returns the string "false" and
leaves the world as it is. -/
theorem OnSaveData_absent_returns_false (env : Env) (w : World) (instanceId : Int)
    (habsent : AceEngine.GetContainer w instanceId = none ∨
      ∃ c, AceEngine.GetContainer w instanceId = some c ∧ c.frontend_ = none) :
    AceContainer.OnSaveData env w instanceId = ("false", w) := by
  rcases habsent with h | ⟨c, h, hf⟩
  · simp [AceContainer.OnSaveData, h]
  · simp [AceContainer.OnSaveData, h, AceContainer.GetFrontend, hf]

/-- Witness of the amended C6 in the empty world. -/
theorem OnSaveData_absent_returns_false_witness :
    AceContainer.OnSaveData Sample.env Sample.empty 1 = ("false", Sample.empty) :=
  OnSaveData_absent_returns_false Sample.env Sample.empty 1 (Or.inl (by decide))

/-- C7: `RunPage` and `PushPage` return true if and only if the id is
registered and its container holds a Frontend; in that case exactly one call,
the Frontend's `RunPage`/`PushPage` with the same arguments, is added to the
trace and nothing else changes; otherwise the world is unchanged, so no
Frontend operation is invoked. -/
theorem RunPage_PushPage_true_iff (w : World) (instanceId pageId : Int)
    (content params : String) :
    ((AceContainer.RunPage w instanceId pageId content params).1 = true ↔
      ∃ c f, AceEngine.GetContainer w instanceId = some c ∧ c.frontend_ = some f) ∧
    (∀ c f, AceEngine.GetContainer w instanceId = some c → c.frontend_ = some f →
      (AceContainer.RunPage w instanceId pageId content params).2 =
        { w with trace := w.trace ++
          [Event.Frontend f (FrontendOp.RunPage pageId content params)] }) ∧
    ((AceContainer.RunPage w instanceId pageId content params).1 = false →
      (AceContainer.RunPage w instanceId pageId content params).2 = w) ∧
    ((AceContainer.PushPage w instanceId content params).1 = true ↔
      ∃ c f, AceEngine.GetContainer w instanceId = some c ∧ c.frontend_ = some f) ∧
    (∀ c f, AceEngine.GetContainer w instanceId = some c → c.frontend_ = some f →
      (AceContainer.PushPage w instanceId content params).2 =
        { w with trace := w.trace ++
          [Event.Frontend f (FrontendOp.PushPage content params)] }) ∧
    ((AceContainer.PushPage w instanceId content params).1 = false →
      (AceContainer.PushPage w instanceId content params).2 = w) := by
  unfold AceContainer.RunPage AceContainer.PushPage AceContainer.GetFrontend
  cases hget : AceEngine.GetContainer w instanceId with
  | none => simp
  | some c =>
    cases hf : c.frontend_ with
    | none =>
      simp only [hf]
      refine ⟨by simp [hf], ?_, by simp, by simp [hf], ?_, by simp⟩ <;>
      · intro c2 f2 hc hf2
        cases hc
        rw [hf] at hf2
        cases hf2
    | some f =>
      simp only [hf]
      refine ⟨by simp [hf], ?_, by simp, by simp [hf], ?_, by simp⟩ <;>
      · intro c2 f2 hc hf2
        cases hc
        rw [hf] at hf2
        cases hf2
        rfl

/-- Recording an effect does not change what a lookup finds. -/
theorem AceEngine.GetContainer_emit (w : World) (e : Event) (instanceId : Int) :
    AceEngine.GetContainer (w.emit e) instanceId = AceEngine.GetContainer w instanceId := rfl

/-- Adding a container under an unregistered id makes the lookup find it. -/
theorem AceEngine.GetContainer_AddContainer_fresh (w : World) (instanceId : Int)
    (c : AceContainer) (habsent : AceEngine.GetContainer w instanceId = none) :
    AceEngine.GetContainer (AceEngine.AddContainer w instanceId c) instanceId = some c := by
  have hfind : List.find? (fun e => e.1 == instanceId) w.registry = none := by
    simpa [AceEngine.GetContainer] using habsent
  simp [AceEngine.AddContainer, habsent, AceEngine.GetContainer, World.emit, List.find?_append,
    hfind]

/-- Whether or not it takes the container, `AddContainer` adds exactly its own
call to the trace. -/
theorem AceEngine.AddContainer_trace (w : World) (instanceId : Int) (c : AceContainer) :
    (AceEngine.AddContainer w instanceId c).trace = w.trace ++ [Event.AddContainer instanceId] := by
  unfold AceEngine.AddContainer
  cases AceEngine.GetContainer w instanceId <;> rfl

/-- After the registered object under an id was changed, the lookup finds the
changed object. -/
theorem AceEngine.GetContainer_store (w : World) (instanceId : Int) (c : AceContainer) :
    AceEngine.GetContainer (w.store instanceId c) instanceId
      = (AceEngine.GetContainer w instanceId).map (fun _ => c) := by
  simp only [AceEngine.GetContainer, World.store]
  induction w.registry with
  | nil => simp
  | cons x xs ih =>
    by_cases hx : x.1 = instanceId
    · simp [List.find?, hx]
    · have hb : (x.1 == instanceId) = false := by simpa using hx
      simp only [List.map_cons, hb, Bool.false_eq_true, if_false, List.find?]
      exact ih

/-- C8: for a frontend type other than JS, JS_CARD and DECLARATIVE_JS and an id
not yet registered, `CreateContainer` returns normally, adds to the trace
exactly the thread set-up, the registration and one FRONTEND_TYPE_ERR start
exception (no Frontend `Initialize`, no `UpdateState(ON_CREATE)`), registers
the new container with its Frontend absent, and a following `OnShow(id)`
leaves the world as it is (no Frontend or Pipeline call, no task). -/
theorem CreateContainer_unsupported (env : Env) (w : World) (instanceId : Int) (raw : Nat)
    (isArkApp : Bool) (aceAbility : Option AceAbility) (callback : Option ObjRef)
    (hfresh : AceEngine.GetContainer w instanceId = none) :
    ∃ w1 c1, AceContainer.CreateContainer env w instanceId (FrontendType.UNSUPPORTED raw)
        isArkApp aceAbility callback = Except.ok w1 ∧
      w1.trace = w.trace ++
        [ Event.InitForThread env.INSTANCE_ID_PLATFORM,
          Event.InitPlatformThread,
          Event.InitJsThread true,
          Event.PostTask (Task.InitForThread instanceId) TaskType.JS,
          Event.AddContainer instanceId,
          Event.SendAppStartException AppStartExcepType.FRONTEND_TYPE_ERR ] ∧
      AceEngine.GetContainer w1 instanceId = some c1 ∧
      c1.frontend_ = none ∧ c1.pipelineContext_ = none ∧
      c1.type_ = FrontendType.UNSUPPORTED raw ∧
      AceContainer.OnShow env w1 instanceId = w1 := by
  let c0 : AceContainer :=
    { instanceId_ := instanceId, type_ := FrontendType.UNSUPPORTED raw, isArkApp_ := isArkApp,
      aceAbility_ := aceAbility, platformEventCallback_ := callback,
      taskExecutor_ := some { platformThread := true, jsThread := some true, otherThreads := false },
      frontend_ := none, pipelineContext_ := none, assetManager_ := none, resRegister_ := none,
      aceView_ := none, windowModal_ := 0, colorScheme_ := 0 }
  let w0 : World :=
    (((w.emit (Event.InitForThread env.INSTANCE_ID_PLATFORM)).emit Event.InitPlatformThread).emit
      (Event.InitJsThread true)).emit (Event.PostTask (Task.InitForThread instanceId) TaskType.JS)
  let w1 : World :=
    ((AceEngine.AddContainer w0 instanceId c0).emit
      (Event.SendAppStartException AppStartExcepType.FRONTEND_TYPE_ERR)).store instanceId c0
  have hfresh0 : AceEngine.GetContainer w0 instanceId = none := hfresh
  have hget : AceEngine.GetContainer w1 instanceId = some c0 := by
    show AceEngine.GetContainer (World.store _ instanceId c0) instanceId = some c0
    rw [AceEngine.GetContainer_store, AceEngine.GetContainer_emit,
      AceEngine.GetContainer_AddContainer_fresh w0 instanceId c0 hfresh0]
    rfl
  have hrun : AceContainer.CreateContainer env w instanceId (FrontendType.UNSUPPORTED raw)
      isArkApp aceAbility callback = Except.ok w1 := by
    simp only [AceContainer.CreateContainer, AceContainer.new, AceContainer.Initialize,
      AceContainer.InitializeFrontend, AceContainer.constructFrontend, AceContainer.GetFrontend]
    simp only [ne_eq, reduceCtorEq, not_false_eq_true, if_true, AceEngine.GetContainer_emit,
      hfresh, Option.isNone_none]
  refine ⟨w1, c0, hrun, ?_, hget, rfl, rfl, rfl, ?_⟩
  · show (World.store _ instanceId c0).trace = _
    simp only [World.store, World.emit, AceEngine.AddContainer_trace, w0, List.append_assoc,
      List.singleton_append, List.cons_append, List.nil_append]
  · simp [AceContainer.OnShow, hget, AceContainer.GetFrontend, AceContainer.GetPipelineContext, c0]

/-- Witness of C8: an unsupported frontend type for id 1 in the empty world. -/
theorem CreateContainer_unsupported_witness :
    ∃ w1 c1, AceContainer.CreateContainer Sample.env Sample.empty 1 (FrontendType.UNSUPPORTED 0)
        false (some Sample.ability) (some 9) = Except.ok w1 ∧
      w1.trace = Sample.empty.trace ++
        [ Event.InitForThread Sample.env.INSTANCE_ID_PLATFORM,
          Event.InitPlatformThread,
          Event.InitJsThread true,
          Event.PostTask (Task.InitForThread 1) TaskType.JS,
          Event.AddContainer 1,
          Event.SendAppStartException AppStartExcepType.FRONTEND_TYPE_ERR ] ∧
      AceEngine.GetContainer w1 1 = some c1 ∧
      c1.frontend_ = none ∧ c1.pipelineContext_ = none ∧
      c1.type_ = FrontendType.UNSUPPORTED 0 ∧
      AceContainer.OnShow Sample.env w1 1 = w1 :=
  CreateContainer_unsupported Sample.env Sample.empty 1 0 false (some Sample.ability) (some 9)
    (by decide)

/-- C9, the code at the failing input: after `CreateContainer` with an
unsupported frontend type for id 1, both `AddAssetPath(1, "/data/app/entry", [])`
and `SetView` with a view of instance 1 dereference the null `frontend_`. -/
theorem unsupported_frontend_null_deref :
    (AceContainer.CreateContainer Sample.env Sample.empty 1 (FrontendType.UNSUPPORTED 0) false
        (some Sample.ability) (some 9)).bind
      (fun w => AceContainer.AddAssetPath Sample.env w 1 "/data/app/entry" [])
      = Except.error (Fault.NullDeref "frontend_") ∧
    (AceContainer.CreateContainer Sample.env Sample.empty 1 (FrontendType.UNSUPPORTED 0) false
        (some Sample.ability) (some 9)).bind
      (fun w => AceContainer.SetView Sample.env w (some Sample.view) (Scalar.mk 0) 10 20)
      = Except.error (Fault.NullDeref "frontend_") :=
  ⟨rfl, rfl⟩

/-- C10: for a DECLARATIVE_JS container, `Initialize()` constructs no Frontend
and does nothing, so `CreateContainer` adds only the thread set-up and the
registration to the trace (no `UpdateState(ON_CREATE)`, no message dispatcher);
`AttachView` initialises the UI/GPU/IO roles, then the Scripting role, then
constructs and initialises the Frontend, and only then constructs the Pipeline
(which receives that Frontend). For JS and JS_CARD `Initialize()` constructs
the Frontend and initialises it. -/
theorem declarative_frontend_deferred (env : Env) (w : World) (c : AceContainer)
    (ex : TaskExecutor) (ab : AceAbility) (window : ObjRef) (v : AceView) (density : Scalar)
    (width height : Int)
    (ht : c.type_ = FrontendType.DECLARATIVE_JS) (hex : c.taskExecutor_ = some ex)
    (hab : c.aceAbility_ = some ab) (hstate : env.hasDartState v.instanceId = true) :
    c.Initialize env w = Except.ok (c, w) ∧
    (∀ (instanceId : Int) (isArkApp : Bool) (aceAbility : Option AceAbility)
        (callback : Option ObjRef),
      (AceContainer.CreateContainer env w instanceId FrontendType.DECLARATIVE_JS isArkApp
          aceAbility callback).map (fun w1 => w1.trace) =
        Except.ok (w.trace ++
          [ Event.InitForThread env.INSTANCE_ID_PLATFORM,
            Event.InitPlatformThread,
            Event.PostTask (Task.InitForThread instanceId) TaskType.JS,
            Event.AddContainer instanceId ])) ∧
    (c.AttachView env w window (some v) density width height).map
        (fun r => (r.1.frontend_, r.1.pipelineContext_, r.2.trace)) =
      Except.ok (some w.nextObj, some (w.nextObj + 2), w.trace ++
        [ Event.InitOtherThreads,
          Event.PostTask (Task.InitForThread c.instanceId_) TaskType.UI,
          Event.InitJsThread false,
          Event.NewFrontend w.nextObj FrontendKind.DeclarativeFrontend,
          Event.CreateJsEngine true (GetDeclarativeSharedLibrary c.isArkApp_) c.instanceId_
            (w.nextObj + 1),
          Event.AddExtraNativeObject (w.nextObj + 1) "ability" (some ab.ref),
          Event.Frontend w.nextObj (FrontendOp.SetJsEngine (w.nextObj + 1)),
          Event.Frontend w.nextObj (FrontendOp.SetNeedDebugBreakPoint env.isNeedDebugBreakPoint),
          Event.Frontend w.nextObj (FrontendOp.SetDebugVersion env.isDebugVersion) ] ++
        (if ab.info.any (fun info => info.isLauncherAbility) then
          [Event.Frontend w.nextObj FrontendOp.DisallowPopLastPage] else []) ++
        [ Event.Frontend w.nextObj (FrontendOp.Initialize FrontendType.DECLARATIVE_JS),
          Event.Frontend w.nextObj (FrontendOp.UpdateState FrontendState.ON_CREATE),
          Event.Frontend w.nextObj (FrontendOp.SetJsMessageDispatcher c.instanceId_),
          Event.Frontend w.nextObj (FrontendOp.SetAssetManager (c.assetManager_.map (·.ref))),
          Event.View v ViewOp.GetPlatformResRegister,
          Event.NewPipeline (w.nextObj + 2) window (c.assetManager_.map (·.ref))
            (env.platformResRegister v) (some w.nextObj) v.instanceId,
          Event.Pipeline (w.nextObj + 2) (PipelineOp.SetRootSize density width height),
          Event.Pipeline (w.nextObj + 2) (PipelineOp.SetTextFieldManager (w.nextObj + 3)),
          Event.Pipeline (w.nextObj + 2) (PipelineOp.SetIsRightToLeft env.isRightToLeft),
          Event.Pipeline (w.nextObj + 2) (PipelineOp.SetWindowModal c.windowModal_),
          Event.View v ViewOp.GetDrawDelegate,
          Event.Pipeline (w.nextObj + 2) PipelineOp.SetDrawDelegate,
          Event.View v (ViewOp.RegisterTouchEventCallback (some (w.nextObj + 2))),
          Event.View v (ViewOp.RegisterKeyEventCallback (some (w.nextObj + 2))),
          Event.View v (ViewOp.RegisterMouseEventCallback (some (w.nextObj + 2))),
          Event.View v (ViewOp.RegisterRotationEventCallback (some (w.nextObj + 2))),
          Event.View v (ViewOp.RegisterViewChangeCallback (some (w.nextObj + 2))),
          Event.View v (ViewOp.RegisterDensityChangeCallback (some (w.nextObj + 2))),
          Event.View v (ViewOp.RegisterSystemBarHeightChangeCallback (some (w.nextObj + 2))),
          Event.View v (ViewOp.RegisterSurfaceDestroyCallback (some (w.nextObj + 2))),
          Event.View v (ViewOp.RegisterIdleCallback (some (w.nextObj + 2))),
          Event.Pipeline (w.nextObj + 2) (PipelineOp.SetFinishEventHandler c.instanceId_),
          Event.Pipeline (w.nextObj + 2) (PipelineOp.SetStatusBarEventHandler c.instanceId_),
          Event.InitDeviceType,
          Event.Pipeline (w.nextObj + 2) (PipelineOp.SetThemeManager (w.nextObj + 4)),
          Event.ThemeInitResource (w.nextObj + 4),
          Event.PostTask (Task.LoadCustomTheme (w.nextObj + 4) (c.assetManager_.map (·.ref))
            c.colorScheme_) TaskType.UI,
          Event.PostTask (Task.SetupRootElement (w.nextObj + 2)) TaskType.UI,
          Event.View v ViewOp.Launch,
          Event.Frontend w.nextObj (FrontendOp.AttachPipelineContext (w.nextObj + 2)),
          Event.RegisterToWatchDog v.instanceId ]) ∧
    (∀ (cj : AceContainer) (abj : AceAbility), cj.aceAbility_ = some abj →
      (cj.type_ = FrontendType.JS →
        (cj.Initialize env w).map (fun r => (r.1.frontend_, r.2.trace)) =
          Except.ok (some w.nextObj, w.trace ++
            [ Event.NewFrontend w.nextObj FrontendKind.JsFrontend,
              Event.CreateJsEngine false (GetEngineSharedLibrary cj.isArkApp_) cj.instanceId_
                (w.nextObj + 1),
              Event.AddExtraNativeObject (w.nextObj + 1) "ability" (some abj.ref),
              Event.Frontend w.nextObj (FrontendOp.SetJsEngine (w.nextObj + 1)),
              Event.Frontend w.nextObj
                (FrontendOp.SetNeedDebugBreakPoint env.isNeedDebugBreakPoint),
              Event.Frontend w.nextObj (FrontendOp.SetDebugVersion env.isDebugVersion) ] ++
            (if abj.info.any (fun info => info.isLauncherAbility) then
              [Event.Frontend w.nextObj FrontendOp.DisallowPopLastPage] else []) ++
            [ Event.Frontend w.nextObj (FrontendOp.Initialize FrontendType.JS) ])) ∧
      (cj.type_ = FrontendType.JS_CARD →
        (cj.Initialize env w).map (fun r => (r.1.frontend_, r.2.trace)) =
          Except.ok (some w.nextObj, w.trace ++
            [ Event.SetCardType,
              Event.NewFrontend w.nextObj FrontendKind.CardFrontend ] ++
            (if abj.info.any (fun info => info.isLauncherAbility) then
              [Event.Frontend w.nextObj FrontendOp.DisallowPopLastPage] else []) ++
            [ Event.Frontend w.nextObj (FrontendOp.Initialize FrontendType.JS_CARD) ]))) := by
  refine ⟨?_, ?_, ?_, ?_⟩
  · simp [AceContainer.Initialize, ht]
  · intro instanceId isArkApp aceAbility callback
    simp only [AceContainer.CreateContainer, AceContainer.new, AceContainer.Initialize,
      AceContainer.GetFrontend, ne_eq, not_true_eq_false, if_false]
    split <;> simp [Except.map, World.store, World.emit, AceEngine.AddContainer_trace]
  · rcases ab with ⟨abref, abinfo⟩
    rcases abinfo with _ | ⟨⟨launcher⟩⟩ <;> [skip; cases launcher] <;>
    simp [AceContainer.AttachView, AceContainer.attachViewRoles, AceContainer.InitializeFrontend,
      AceContainer.constructFrontend, AceContainer.InitializeCallback, AceContainer.GetFrontend,
      ht, hex, hab, hstate, World.emit, World.alloc, Except.map]
  · intro cj abj habj
    rcases abj with ⟨abref, abinfo⟩
    constructor
    · intro hj
      rcases abinfo with _ | ⟨⟨launcher⟩⟩ <;> [skip; cases launcher] <;>
      simp [AceContainer.Initialize, AceContainer.InitializeFrontend,
        AceContainer.constructFrontend, hj, habj, World.emit, World.alloc, Except.map]
    · intro hj
      rcases abinfo with _ | ⟨⟨launcher⟩⟩ <;> [skip; cases launcher] <;>
      simp [AceContainer.Initialize, AceContainer.InitializeFrontend,
        AceContainer.constructFrontend, hj, habj, World.emit, World.alloc, Except.map]

/-- Witness of C10 on the sample declarative container in the empty world:
`Initialize()` does nothing, and `AttachView` yields frontend 0 and pipeline 2
with the roles initialised before the frontend and the frontend before the
pipeline. -/
theorem declarative_frontend_deferred_witness :
    Sample.declarative.Initialize Sample.env Sample.empty
      = Except.ok (Sample.declarative, Sample.empty) ∧
    (Sample.declarative.AttachView Sample.env Sample.empty 1005 (some Sample.view)
        (Scalar.mk 0) 10 20).map (fun r => (r.1.frontend_, r.1.pipelineContext_, r.2.trace)) =
      Except.ok (some 0, some 2,
        [ Event.InitOtherThreads,
          Event.PostTask (Task.InitForThread 1) TaskType.UI,
          Event.InitJsThread false,
          Event.NewFrontend 0 FrontendKind.DeclarativeFrontend,
          Event.CreateJsEngine true "libace_engine_declarative.z.so" 1 1,
          Event.AddExtraNativeObject 1 "ability" (some 7),
          Event.Frontend 0 (FrontendOp.SetJsEngine 1),
          Event.Frontend 0 (FrontendOp.SetNeedDebugBreakPoint false),
          Event.Frontend 0 (FrontendOp.SetDebugVersion false),
          Event.Frontend 0 (FrontendOp.Initialize FrontendType.DECLARATIVE_JS),
          Event.Frontend 0 (FrontendOp.UpdateState FrontendState.ON_CREATE),
          Event.Frontend 0 (FrontendOp.SetJsMessageDispatcher 1),
          Event.Frontend 0 (FrontendOp.SetAssetManager none),
          Event.View Sample.view ViewOp.GetPlatformResRegister,
          Event.NewPipeline 2 1005 none (some 2005) (some 0) 1,
          Event.Pipeline 2 (PipelineOp.SetRootSize (Scalar.mk 0) 10 20),
          Event.Pipeline 2 (PipelineOp.SetTextFieldManager 3),
          Event.Pipeline 2 (PipelineOp.SetIsRightToLeft false),
          Event.Pipeline 2 (PipelineOp.SetWindowModal 0),
          Event.View Sample.view ViewOp.GetDrawDelegate,
          Event.Pipeline 2 PipelineOp.SetDrawDelegate,
          Event.View Sample.view (ViewOp.RegisterTouchEventCallback (some 2)),
          Event.View Sample.view (ViewOp.RegisterKeyEventCallback (some 2)),
          Event.View Sample.view (ViewOp.RegisterMouseEventCallback (some 2)),
          Event.View Sample.view (ViewOp.RegisterRotationEventCallback (some 2)),
          Event.View Sample.view (ViewOp.RegisterViewChangeCallback (some 2)),
          Event.View Sample.view (ViewOp.RegisterDensityChangeCallback (some 2)),
          Event.View Sample.view (ViewOp.RegisterSystemBarHeightChangeCallback (some 2)),
          Event.View Sample.view (ViewOp.RegisterSurfaceDestroyCallback (some 2)),
          Event.View Sample.view (ViewOp.RegisterIdleCallback (some 2)),
          Event.Pipeline 2 (PipelineOp.SetFinishEventHandler 1),
          Event.Pipeline 2 (PipelineOp.SetStatusBarEventHandler 1),
          Event.InitDeviceType,
          Event.Pipeline 2 (PipelineOp.SetThemeManager 4),
          Event.ThemeInitResource 4,
          Event.PostTask (Task.LoadCustomTheme 4 none 0) TaskType.UI,
          Event.PostTask (Task.SetupRootElement 2) TaskType.UI,
          Event.View Sample.view ViewOp.Launch,
          Event.Frontend 0 (FrontendOp.AttachPipelineContext 2),
          Event.RegisterToWatchDog 1 ]) :=
  have h := declarative_frontend_deferred Sample.env Sample.empty Sample.declarative
    { platformThread := true, jsThread := none, otherThreads := false } Sample.ability 1005
    Sample.view (Scalar.mk 0) 10 20 rfl rfl rfl rfl
  ⟨h.1, h.2.2.1⟩

/-- C11: the engine library is a function of (isArkApp, isDeclarative) alone:
(false,false) is the QuickJS library, (true,false) the Ark library,
(false,true) the declarative library, (true,true) the declarative Ark library;
the four are pairwise distinct. `InitializeFrontend` binds, for a JS container,
exactly the library `GetEngineSharedLibrary(isArkApp_)` gives, for a
DECLARATIVE_JS container exactly the one `GetDeclarativeSharedLibrary(isArkApp_)`
gives, and for a JS_CARD container none. -/
theorem engine_library_by_ark_and_declarative (env : Env) (w : World) (c : AceContainer)
    (ab : AceAbility) (hab : c.aceAbility_ = some ab) :
    GetEngineSharedLibrary false = "libace_engine_qjs.z.so" ∧
    GetEngineSharedLibrary true = "libace_engine_ark.z.so" ∧
    GetDeclarativeSharedLibrary false = "libace_engine_declarative.z.so" ∧
    GetDeclarativeSharedLibrary true = "libace_engine_declarative_ark.z.so" ∧
    [ GetEngineSharedLibrary false, GetEngineSharedLibrary true,
      GetDeclarativeSharedLibrary false, GetDeclarativeSharedLibrary true ].Nodup ∧
    (c.type_ = FrontendType.JS →
      (c.InitializeFrontend env w).map
          (fun r => (addedTrace w r.2).filterMap Event.engineLibrary)
        = Except.ok [GetEngineSharedLibrary c.isArkApp_]) ∧
    (c.type_ = FrontendType.DECLARATIVE_JS →
      (c.InitializeFrontend env w).map
          (fun r => (addedTrace w r.2).filterMap Event.engineLibrary)
        = Except.ok [GetDeclarativeSharedLibrary c.isArkApp_]) ∧
    (c.type_ = FrontendType.JS_CARD →
      (c.InitializeFrontend env w).map
          (fun r => (addedTrace w r.2).filterMap Event.engineLibrary)
        = Except.ok []) := by
  refine ⟨rfl, rfl, rfl, rfl, by decide, ?_, ?_, ?_⟩ <;>
  · intro ht
    rcases ab with ⟨abref, abinfo⟩
    rcases abinfo with _ | ⟨⟨launcher⟩⟩ <;> [skip; cases launcher] <;>
    simp [AceContainer.InitializeFrontend, AceContainer.constructFrontend, ht, hab, World.emit,
      World.alloc, Except.map, addedTrace, Event.engineLibrary]

/-- Witness of C11 on the sample live container (a JS container, not an Ark
app): `InitializeFrontend` binds the QuickJS library. -/
theorem engine_library_by_ark_and_declarative_witness :
    (Sample.live.InitializeFrontend Sample.env Sample.empty).map
        (fun r => (addedTrace Sample.empty r.2).filterMap Event.engineLibrary)
      = Except.ok ["libace_engine_qjs.z.so"] :=
  (engine_library_by_ark_and_declarative Sample.env Sample.empty Sample.live Sample.ability
    rfl).2.2.2.2.2.1 rfl

/-- C13: for a registered container that holds a Frontend and a task executor,
`OnHide(id)` calls the Frontend's `OnHide` and then posts exactly one task, to
the JS role, that invokes `TriggerGarbageCollection` on that same Frontend (the
Pipeline's `OnHide` follows when a Pipeline is held and the build is not a
wearable product); when the Frontend is absent it posts no task at all. -/
theorem OnHide_posts_frontend_gc (env : Env) (w : World) (instanceId : Int) (c : AceContainer)
    (hget : AceEngine.GetContainer w instanceId = some c) :
    (∀ f ex, c.frontend_ = some f → c.taskExecutor_ = some ex →
      AceContainer.OnHide env w instanceId = { w with trace := w.trace ++
        [ Event.Frontend f FrontendOp.OnHide,
          Event.PostTask (Task.FrontTriggerGC f) TaskType.JS ] ++
        (match c.pipelineContext_ with
          | some context =>
            if env.WEARABLE_PRODUCT then [] else [Event.Pipeline context PipelineOp.OnHide]
          | none => []) }) ∧
    (c.frontend_ = none →
      AceContainer.OnHide env w instanceId = { w with trace := w.trace ++
        (match c.pipelineContext_ with
          | some context =>
            if env.WEARABLE_PRODUCT then [] else [Event.Pipeline context PipelineOp.OnHide]
          | none => []) }) := by
  constructor
  · intro f ex hf hex
    cases hp : c.pipelineContext_ <;> cases hw : env.WEARABLE_PRODUCT <;>
    simp [AceContainer.OnHide, hget, AceContainer.GetFrontend, AceContainer.GetTaskExecutor,
      AceContainer.GetPipelineContext, hf, hex, hp, hw, World.emit]
  · intro hf
    cases hp : c.pipelineContext_ <;> cases hw : env.WEARABLE_PRODUCT <;>
    simp [AceContainer.OnHide, hget, AceContainer.GetFrontend,
      AceContainer.GetPipelineContext, hf, hp, hw, World.emit]

/-- Witness of C13 on the sample live world: frontend 0 is hidden, its
garbage collection is posted to the JS role, then pipeline 2 is hidden. -/
theorem OnHide_posts_frontend_gc_witness :
    AceContainer.OnHide Sample.env Sample.liveWorld 1 = { Sample.liveWorld with trace :=
      [ Event.Frontend 0 FrontendOp.OnHide,
        Event.PostTask (Task.FrontTriggerGC 0) TaskType.JS,
        Event.Pipeline 2 PipelineOp.OnHide ] } :=
  (OnHide_posts_frontend_gc Sample.env Sample.liveWorld 1 Sample.live (by decide)).1 0
    { platformThread := true, jsThread := some true, otherThreads := true } rfl rfl

/-- C16: for every registry state, instance id, pageId and content,
`UpdatePage(id, pageId, content)` returns the same value and leaves the same
world (the same calls) as `OnBackPressed(id)`: it reads neither pageId nor
content and invokes the Pipeline's `CallRouterBackToPopPage`. -/
theorem UpdatePage_eq_OnBackPressed (env : Env) (w : World) (instanceId pageId : Int)
    (content : String) :
    AceContainer.UpdatePage env w instanceId pageId content
      = AceContainer.OnBackPressed env w instanceId ∧
    (∀ c context, AceEngine.GetContainer w instanceId = some c →
      c.pipelineContext_ = some context →
      AceContainer.UpdatePage env w instanceId pageId content =
        (env.callRouterBackToPopPage context,
          { w with trace := w.trace ++
            [Event.Pipeline context PipelineOp.CallRouterBackToPopPage] })) := by
  refine ⟨rfl, ?_⟩
  intro c context hget hp
  simp [AceContainer.UpdatePage, hget, AceContainer.GetPipelineContext, hp, World.emit]

/-- C17: `SetView` returns the world it was given (nothing attached, every
container unchanged, no Pipeline constructed, no role initialised, no task
posted) whenever the view is null, the view's instance id is not registered,
or platform window creation fails. -/
theorem SetView_aborts (env : Env) (w : World) (view : Option AceView) (density : Scalar)
    (width height : Int)
    (habort : view = none ∨
      (∃ v, view = some v ∧ AceEngine.GetContainer w v.instanceId = none) ∨
      (∃ v, view = some v ∧ env.platformWindowCreate v = none)) :
    AceContainer.SetView env w view density width height = Except.ok w := by
  rcases habort with h | ⟨v, h, hget⟩ | ⟨v, h, hwin⟩
  · simp [AceContainer.SetView, h]
  · simp [AceContainer.SetView, h, hget]
  · subst h
    simp only [AceContainer.SetView]
    cases AceEngine.GetContainer w v.instanceId with
    | none => rfl
    | some c => simp [hwin]

/-- Witness of C17: a view whose instance id 2 is not registered in the sample
live world. -/
theorem SetView_aborts_witness :
    AceContainer.SetView Sample.env Sample.liveWorld (some { ref := 6, instanceId := 2 })
        (Scalar.mk 0) 10 20
      = Except.ok Sample.liveWorld :=
  SetView_aborts Sample.env Sample.liveWorld (some { ref := 6, instanceId := 2 }) (Scalar.mk 0)
    10 20 (Or.inr (Or.inl ⟨{ ref := 6, instanceId := 2 }, rfl, by decide⟩))

/-- C12: of the nine callbacks registered by `InitializeCallback`, the key and
the rotation callback add exactly one `PostSyncTask` on the UI role and return
what the Pipeline's `OnKeyEvent`/`OnRotationEvent` produced (false when the
task did not run); each of the other seven (touch, mouse, resize, density,
system bar, surface destroy, idle) adds exactly one `PostTask` on the UI role
that carries the event, and nothing else: no Pipeline call on the calling
thread. -/
theorem callbacks_sync_only_key_and_rotation (env : Env) (context : PipelineRef) (ran : Bool)
    (w : World) :
    (∀ event, keyEventCallback env context ran w event =
      ((if ran then env.pipelineOnKeyEvent context event else false),
        { w with trace := w.trace ++
          [Event.PostSyncTask (Task.OnKeyEvent context event) TaskType.UI] })) ∧
    (∀ event, rotationEventCallback env context ran w event =
      ((if ran then env.pipelineOnRotationEvent context event else false),
        { w with trace := w.trace ++
          [Event.PostSyncTask (Task.OnRotationEvent context event) TaskType.UI] })) ∧
    (∀ event, touchEventCallback context w event = { w with trace := w.trace ++
      [Event.PostTask (Task.OnTouchEvent context event) TaskType.UI] }) ∧
    (∀ event, mouseEventCallback context w event = { w with trace := w.trace ++
      [Event.PostTask (Task.OnMouseEvent context event) TaskType.UI] }) ∧
    (∀ width height, viewChangeCallback context w width height = { w with trace := w.trace ++
      [Event.PostTask (Task.OnSurfaceChanged context width height) TaskType.UI] }) ∧
    (∀ density, densityChangeCallback context w density = { w with trace := w.trace ++
      [Event.PostTask (Task.OnSurfaceDensityChanged context density) TaskType.UI] }) ∧
    (∀ statusBar navigationBar,
      systemBarHeightChangeCallback context w statusBar navigationBar =
        { w with trace := w.trace ++
          [Event.PostTask (Task.OnSystemBarHeightChanged context statusBar navigationBar)
            TaskType.UI] }) ∧
    surfaceDestroyCallback context w = { w with trace := w.trace ++
      [Event.PostTask (Task.OnSurfaceDestroyed context) TaskType.UI] } ∧
    (∀ deadline, idleCallback context w deadline = { w with trace := w.trace ++
      [Event.PostTask (Task.OnIdle context deadline) TaskType.UI] }) ∧
    (∀ (c : AceContainer) (view : AceView), c.aceView_ = some view →
      c.pipelineContext_ = some context →
      (c.InitializeCallback w).map (fun w1 => addedTrace w w1) = Except.ok
        [ Event.View view (ViewOp.RegisterTouchEventCallback (some context)),
          Event.View view (ViewOp.RegisterKeyEventCallback (some context)),
          Event.View view (ViewOp.RegisterMouseEventCallback (some context)),
          Event.View view (ViewOp.RegisterRotationEventCallback (some context)),
          Event.View view (ViewOp.RegisterViewChangeCallback (some context)),
          Event.View view (ViewOp.RegisterDensityChangeCallback (some context)),
          Event.View view (ViewOp.RegisterSystemBarHeightChangeCallback (some context)),
          Event.View view (ViewOp.RegisterSurfaceDestroyCallback (some context)),
          Event.View view (ViewOp.RegisterIdleCallback (some context)) ]) := by
  refine ⟨?_, ?_, ?_, ?_, ?_, ?_, ?_, ?_, ?_, ?_⟩
  · intro event; rfl
  · intro event; rfl
  · intro event; rfl
  · intro event; rfl
  · intro width height; rfl
  · intro density; rfl
  · intro statusBar navigationBar; rfl
  · rfl
  · intro deadline; rfl
  · intro c view hv hp
    simp [AceContainer.InitializeCallback, hv, hp, World.emit, Except.map, addedTrace]

/-- C14, as stated, fails: in the sample live world, whose container 1 has its
view attached, the only role `OnHide(1)` posts a task to is the JS role; no
memory-trim task goes to the UI role. -/
theorem OnHide_posts_no_memory_trim :
    AceEngine.GetContainer Sample.liveWorld 1 = some Sample.live ∧
    Sample.live.aceView_ = some Sample.view ∧
    (addedTrace Sample.liveWorld (AceContainer.OnHide Sample.env Sample.liveWorld 1)).filterMap
      Event.postedRole = [TaskType.JS] := by
  decide

/-- C14, amended: for every registered container, the only task `OnHide(id)`
itself posts is the JS-role garbage collection of its Frontend (none when the
Frontend or the executor is absent); the memory-trim tasks are posted by the
container's `TriggerGarbageCollection`, which `OnHide` does not call: two to
the GPU and IO roles when those threads are standalone, then one to the UI role,
then the JS-role task. -/
theorem OnHide_posts_only_js_gc (env : Env) (w : World) (instanceId : Int) (c : AceContainer)
    (ex : TaskExecutor) (hget : AceEngine.GetContainer w instanceId = some c)
    (hex : c.taskExecutor_ = some ex) :
    (addedTrace w (AceContainer.OnHide env w instanceId)).filterMap Event.postedRole
      = (if c.frontend_.isSome then [TaskType.JS] else []) ∧
    (c.TriggerGarbageCollection env w).map (fun w1 => addedTrace w w1) = Except.ok
      ((if !env.OHOS_PLATFORM || !env.ENABLE_NATIVE_VIEW then
          [ Event.PostTask Task.PurgeMallocCache TaskType.GPU,
            Event.PostTask Task.PurgeMallocCache TaskType.IO_ ] else []) ++
        [ Event.PostTask Task.PurgeMallocCache TaskType.UI,
          Event.PostTask (Task.WeakFrontendGC c.frontend_) TaskType.JS ]) := by
  constructor
  · cases hf : c.frontend_ <;> cases hp : c.pipelineContext_ <;>
      cases hw : env.WEARABLE_PRODUCT <;>
    simp [AceContainer.OnHide, hget, AceContainer.GetFrontend, AceContainer.GetTaskExecutor,
      AceContainer.GetPipelineContext, hf, hex, hp, hw, World.emit, addedTrace,
      Event.postedRole]
  · cases ho : env.OHOS_PLATFORM <;> cases hn : env.ENABLE_NATIVE_VIEW <;>
    simp [AceContainer.TriggerGarbageCollection, hex, ho, hn, World.emit, addedTrace,
      Except.map]

/-- Witness of the amended C14 on the sample live world (OHOS platform with
native view: GPU and IO are not standalone). -/
theorem OnHide_posts_only_js_gc_witness :
    (addedTrace Sample.liveWorld (AceContainer.OnHide Sample.env Sample.liveWorld 1)).filterMap
      Event.postedRole = [TaskType.JS] ∧
    (Sample.live.TriggerGarbageCollection Sample.env Sample.liveWorld).map
        (fun w1 => addedTrace Sample.liveWorld w1) = Except.ok
      [ Event.PostTask Task.PurgeMallocCache TaskType.UI,
        Event.PostTask (Task.WeakFrontendGC (some 0)) TaskType.JS ] :=
  OnHide_posts_only_js_gc Sample.env Sample.liveWorld 1 Sample.live
    { platformThread := true, jsThread := some true, otherThreads := true } (by decide) rfl

/-- C15: for a container with its task executor, `DispatchPluginError` posts
exactly one task, to the Background role, that calls the Frontend's
`TransferJsPluginGetError` with the same callbackId, errorCode and message when
the Frontend is present; when the Frontend is absent it returns the world
unchanged, posting no task on any role. -/
theorem DispatchPluginError_background (c : AceContainer) (w : World) (ex : TaskExecutor)
    (callbackId errorCode : Int) (errorMessage : String)
    (hex : c.taskExecutor_ = some ex) :
    (∀ f, c.frontend_ = some f →
      c.DispatchPluginError w callbackId errorCode errorMessage = Except.ok
        { w with trace := w.trace ++
          [ Event.PostTask (Task.TransferJsPluginGetError f callbackId errorCode errorMessage)
              TaskType.BACKGROUND ] }) ∧
    (c.frontend_ = none →
      c.DispatchPluginError w callbackId errorCode errorMessage = Except.ok w) := by
  constructor
  · intro f hf
    simp [AceContainer.DispatchPluginError, AceContainer.GetFrontend, hf, hex, World.emit]
  · intro hf
    simp [AceContainer.DispatchPluginError, AceContainer.GetFrontend, hf]

/-- Witness of C15 on the sample live container. -/
theorem DispatchPluginError_background_witness :
    Sample.live.DispatchPluginError Sample.liveWorld 4 (-1) "denied" = Except.ok
      { Sample.liveWorld with trace :=
        [ Event.PostTask (Task.TransferJsPluginGetError 0 4 (-1) "denied")
            TaskType.BACKGROUND ] } :=
  (DispatchPluginError_background Sample.live Sample.liveWorld
    { platformThread := true, jsThread := some true, otherThreads := true } 4 (-1) "denied"
    rfl).1 0 rfl

/-- C20, as stated, fails: the JS container that `CreateContainer` registers
for id 1 holds frontend 0 and no Pipeline (no view was attached); `Destroy()`
leaves it holding frontend 0 and posts no task. -/
theorem Destroy_without_pipeline_keeps_frontend :
    (AceContainer.CreateContainer Sample.env Sample.empty 1 FrontendType.JS false
        (some Sample.ability) (some 9)).toOption.bind
      (fun w => AceEngine.GetContainer w 1) = some Sample.created ∧
    Sample.created.frontend_ = some 0 ∧
    (Sample.created.Destroy Sample.empty).1.frontend_ = some 0 ∧
    (Sample.created.Destroy Sample.empty).2.trace = [] := by
  decide

/-- C20, amended: for a container that holds a Frontend, if it also holds a
Pipeline and a task executor then after `Destroy()` it no longer holds the
Frontend and the tasks posted are exactly the Pipeline's destroy on the UI role
and one JS-role task performing `UpdateState(ON_DESTROY)` then `Destroy()` on
that Frontend; if it holds no Pipeline, `Destroy()` posts no task and the
container keeps its Frontend. -/
theorem Destroy_frontend_with_pipeline (c : AceContainer) (w : World) (f : FrontendRef)
    (hf : c.frontend_ = some f) :
    (∀ p ex, c.pipelineContext_ = some p → c.taskExecutor_ = some ex →
      (c.Destroy w).1.frontend_ = none ∧
      (c.Destroy w).2.trace = w.trace ++
        [ Event.PostTask (Task.PipelineDestroy (some p)) TaskType.UI,
          Event.PostTask (Task.FrontendDestroy (some f)) TaskType.JS ]) ∧
    (c.pipelineContext_ = none →
      (c.Destroy w).1.frontend_ = some f ∧ (c.Destroy w).2 = w) := by
  constructor
  · intro p ex hp hex
    simp [AceContainer.Destroy, hp, hf, hex, World.emit]
  · intro hp
    simp [AceContainer.Destroy, hp, hf]

/-- Witness of the amended C20 on the sample live container. -/
theorem Destroy_frontend_with_pipeline_witness :
    (Sample.live.Destroy Sample.liveWorld).1.frontend_ = none ∧
    (Sample.live.Destroy Sample.liveWorld).2.trace = Sample.liveWorld.trace ++
      [ Event.PostTask (Task.PipelineDestroy (some 2)) TaskType.UI,
        Event.PostTask (Task.FrontendDestroy (some 0)) TaskType.JS ] :=
  (Destroy_frontend_with_pipeline Sample.live Sample.liveWorld 0 rfl).1 2
    { platformThread := true, jsThread := some true, otherThreads := true } rfl rfl

/-- A lookup reads the registry only. -/
theorem AceEngine.GetContainer_congr (w1 w2 : World) (instanceId : Int)
    (h : w1.registry = w2.registry) :
    AceEngine.GetContainer w1 instanceId = AceEngine.GetContainer w2 instanceId := by
  simp [AceEngine.GetContainer, h]

/-- Writing a changed container back leaves the trace as it is. -/
theorem World.store_trace (w : World) (instanceId : Int) (c : AceContainer) :
    (w.store instanceId c).trace = w.trace := rfl

/-- What a run added, when the trace after it is the trace before it followed
by `es`. -/
theorem addedTrace_append (w : World) (registry : List (Int × AceContainer)) (es : List Event)
    (nextObj : Nat) :
    addedTrace w { registry := registry, trace := w.trace ++ es, nextObj := nextObj } = es := by
  simp [addedTrace]

/-- Writing a changed container back adds nothing to the trace. -/
theorem addedTrace_store (w w1 : World) (instanceId : Int) (c : AceContainer) :
    addedTrace w (w1.store instanceId c) = addedTrace w w1 := rfl

/-- C18, as stated, fails: the sample live container already holds pipeline 2;
a second successful `SetView` constructs pipeline 5 and the container then
holds pipeline 5. -/
theorem second_SetView_constructs_second_pipeline :
    (AceEngine.GetContainer Sample.liveWorld 1).bind (fun c => c.pipelineContext_) = some 2 ∧
    (AceContainer.SetView Sample.env Sample.liveWorld (some Sample.view) (Scalar.mk 0) 10
        20).toOption.map
      (fun w1 => ((AceEngine.GetContainer w1 1).bind (fun c => c.pipelineContext_),
        (addedTrace Sample.liveWorld w1).filterMap Event.newPipeline))
      = some (some 5, [5]) := by
  decide

/-- C18, amended: `SetView` has no guard against a second attachment. For a
registered container that already holds a Pipeline, a successful `SetView`
constructs one new Pipeline, under the next unused handle, and the container
then holds the new one; for the declarative variant it first constructs a new
Frontend as well, for the other variants no Frontend. The new handle differs
from that of the Pipeline held before, which was handed out earlier. -/
theorem SetView_again_constructs_pipeline (env : Env) (w : World) (v : AceView)
    (c : AceContainer) (p : PipelineRef) (f : FrontendRef) (ex : TaskExecutor) (ab : AceAbility)
    (window : ObjRef) (density : Scalar) (width height : Int)
    (hget : AceEngine.GetContainer w v.instanceId = some c)
    (hp : c.pipelineContext_ = some p) (hf : c.frontend_ = some f)
    (hex : c.taskExecutor_ = some ex) (hab : c.aceAbility_ = some ab)
    (hwin : env.platformWindowCreate v = some window)
    (hstate : env.hasDartState v.instanceId = true) (hused : p < w.nextObj) :
    ((AceEngine.GetContainer w v.instanceId).bind (fun c0 => c0.pipelineContext_) = some p ∧
      w.nextObj ≠ p ∧ w.nextObj + 2 ≠ p) ∧
    (c.type_ ≠ FrontendType.DECLARATIVE_JS →
      (AceContainer.SetView env w (some v) density width height).map
        (fun w1 => ((AceEngine.GetContainer w1 v.instanceId).bind (fun c1 => c1.pipelineContext_),
          (addedTrace w w1).filterMap Event.newPipeline,
          (addedTrace w w1).filterMap Event.newFrontend))
        = Except.ok (some w.nextObj, [w.nextObj], [])) ∧
    (c.type_ = FrontendType.DECLARATIVE_JS →
      (AceContainer.SetView env w (some v) density width height).map
        (fun w1 => ((AceEngine.GetContainer w1 v.instanceId).bind (fun c1 => c1.pipelineContext_),
          (addedTrace w w1).filterMap Event.newPipeline,
          (addedTrace w w1).filterMap Event.newFrontend))
        = Except.ok (some (w.nextObj + 2), [w.nextObj + 2], [w.nextObj])) := by
  have hstore : ∀ (w2 : World) (c2 : AceContainer), w2.registry = w.registry →
      AceEngine.GetContainer (w2.store v.instanceId c2) v.instanceId = some c2 := by
    intro w2 c2 h
    rw [AceEngine.GetContainer_store, AceEngine.GetContainer_congr w2 w _ h, hget]
    rfl
  refine ⟨⟨by rw [hget]; exact hp, Nat.ne_of_gt hused,
    Nat.ne_of_gt (Nat.lt_of_lt_of_le hused (Nat.le_add_right _ 2))⟩, ?_, ?_⟩
  · intro ht
    cases hty : c.type_ with
    | DECLARATIVE_JS => exact absurd hty ht
    | JS =>
      simp only [AceContainer.SetView, hget, hwin, AceContainer.AttachView,
        AceContainer.attachViewRoles, AceContainer.InitializeCallback, hex, hf, hty, hstate,
        World.emit, World.alloc]
      simp [Except.map, hstore, addedTrace_store, addedTrace_append, Event.newPipeline,
        Event.newFrontend]
    | JS_CARD =>
      simp only [AceContainer.SetView, hget, hwin, AceContainer.AttachView,
        AceContainer.attachViewRoles, AceContainer.InitializeCallback, hex, hf, hty, hstate,
        World.emit, World.alloc]
      simp [Except.map, hstore, addedTrace_store, addedTrace_append, Event.newPipeline,
        Event.newFrontend]
    | UNSUPPORTED raw =>
      simp only [AceContainer.SetView, hget, hwin, AceContainer.AttachView,
        AceContainer.attachViewRoles, AceContainer.InitializeCallback, hex, hf, hty, hstate,
        World.emit, World.alloc]
      simp [Except.map, hstore, addedTrace_store, addedTrace_append, Event.newPipeline,
        Event.newFrontend]
  · intro hty
    rcases ab with ⟨abref, abinfo⟩
    rcases abinfo with _ | ⟨⟨launcher⟩⟩ <;> [skip; cases launcher] <;>
    · simp only [AceContainer.SetView, hget, hwin, AceContainer.AttachView,
        AceContainer.attachViewRoles, AceContainer.InitializeFrontend,
        AceContainer.constructFrontend, AceContainer.InitializeCallback,
        AceContainer.GetFrontend, hex, hab, hty, hstate, World.emit, World.alloc]
      simp [Except.map, hstore, addedTrace_store, addedTrace_append, Event.newPipeline,
        Event.newFrontend]

/-- Witness of the amended C18 on the sample live world: the JS container
holding pipeline 2 gets pipeline 5 from a second `SetView`. -/
theorem SetView_again_constructs_pipeline_witness :
    (AceContainer.SetView Sample.env Sample.liveWorld (some Sample.view) (Scalar.mk 0) 10 20).map
      (fun w1 => ((AceEngine.GetContainer w1 1).bind (fun c1 => c1.pipelineContext_),
        (addedTrace Sample.liveWorld w1).filterMap Event.newPipeline,
        (addedTrace Sample.liveWorld w1).filterMap Event.newFrontend))
      = Except.ok (some 5, [5], []) :=
  (SetView_again_constructs_pipeline Sample.env Sample.liveWorld Sample.view Sample.live 2 0
    { platformThread := true, jsThread := some true, otherThreads := true } Sample.ability 1005
    (Scalar.mk 0) 10 20 (by decide) rfl rfl rfl rfl rfl rfl (by decide)).2.1 (by decide)

/-- The constructor leaves the registry alone and stores its arguments. -/
theorem AceContainer.new_spec (w : World) (instanceId : Int) (type : FrontendType)
    (isArkApp : Bool) (aceAbility : Option AceAbility) (callback : Option ObjRef) :
    (AceContainer.new w instanceId type isArkApp aceAbility callback).2.registry = w.registry ∧
    (AceContainer.new w instanceId type isArkApp aceAbility callback).1.instanceId_ = instanceId ∧
    (AceContainer.new w instanceId type isArkApp aceAbility callback).1.type_ = type ∧
    (AceContainer.new w instanceId type isArkApp aceAbility callback).1.isArkApp_ = isArkApp ∧
    (AceContainer.new w instanceId type isArkApp aceAbility callback).1.aceAbility_ = aceAbility ∧
    (AceContainer.new w instanceId type isArkApp aceAbility callback).1.platformEventCallback_
      = callback := by
  unfold AceContainer.new
  by_cases h : type = FrontendType.DECLARATIVE_JS <;> simp [h, World.emit]

/-- With a non-null ability `Initialize()` returns normally; it leaves the
registry alone and does not change what the constructor stored. -/
theorem AceContainer.Initialize_ok (env : Env) (c : AceContainer) (w : World) (ab : AceAbility)
    (hab : c.aceAbility_ = some ab) :
    ∃ c1 w1, c.Initialize env w = Except.ok (c1, w1) ∧ w1.registry = w.registry ∧
      c1.instanceId_ = c.instanceId_ ∧ c1.type_ = c.type_ ∧ c1.isArkApp_ = c.isArkApp_ ∧
      c1.aceAbility_ = c.aceAbility_ ∧ c1.platformEventCallback_ = c.platformEventCallback_ := by
  rcases ab with ⟨abref, abinfo⟩
  rcases abinfo with _ | ⟨⟨launcher⟩⟩ <;> [skip; cases launcher] <;> cases ht : c.type_ <;>
  · simp only [AceContainer.Initialize, AceContainer.InitializeFrontend,
      AceContainer.constructFrontend, ht, hab, World.emit, World.alloc, ne_eq, reduceCtorEq,
      not_false_eq_true, not_true_eq_false, if_true, if_false, Bool.false_eq_true]
    exact ⟨_, _, rfl, rfl, rfl, by first | rfl | exact ht, rfl, by first | rfl | exact hab, rfl⟩

/-- C19: for an instance id not yet registered, after `CreateContainer(id, ...)`
`GetContainer(id)` returns the container that call created (the one built from
the call's arguments); for an id that is already registered, `CreateContainer`
leaves the registry as it was, so `GetContainer(id)` still returns the earlier
container. -/
theorem CreateContainer_then_GetContainer (env : Env) (w wd : World) (instanceId : Int)
    (type : FrontendType) (isArkApp : Bool) (ab : AceAbility) (callback : Option ObjRef)
    (c0 : AceContainer)
    (hfresh : AceEngine.GetContainer w instanceId = none)
    (hdup : AceEngine.GetContainer wd instanceId = some c0) :
    (AceContainer.CreateContainer env w instanceId type isArkApp (some ab) callback).map
      (fun w1 => (AceContainer.GetContainer w1 instanceId).map
        (fun c => (c.instanceId_, c.type_, c.isArkApp_, c.aceAbility_, c.platformEventCallback_)))
      = Except.ok (some (instanceId, type, isArkApp, some ab, callback)) ∧
    (AceContainer.CreateContainer env wd instanceId type isArkApp (some ab) callback).map
      (fun w1 => (w1.registry, AceContainer.GetContainer w1 instanceId))
      = Except.ok (wd.registry, some c0) := by
  have hGet : ∀ w1, AceContainer.GetContainer w1 instanceId
      = AceEngine.GetContainer w1 instanceId := by
    intro w1
    unfold AceContainer.GetContainer
    cases AceEngine.GetContainer w1 instanceId <;> rfl
  constructor
  · obtain ⟨hreg, hid, hty, hark, habi, hcb⟩ := AceContainer.new_spec
      (w.emit (Event.InitForThread env.INSTANCE_ID_PLATFORM)) instanceId type isArkApp
      (some ab) callback
    rcases hnew : AceContainer.new (w.emit (Event.InitForThread env.INSTANCE_ID_PLATFORM))
      instanceId type isArkApp (some ab) callback with ⟨cn, wn⟩
    rw [hnew] at hreg hid hty hark habi hcb
    simp only at hreg hid hty hark habi hcb
    have hwn : AceEngine.GetContainer wn instanceId = none := by
      rw [AceEngine.GetContainer_congr wn w _ hreg, hfresh]
    obtain ⟨c1, w1, hinit, hreg1, hid1, hty1, hark1, habi1, hcb1⟩ :=
      AceContainer.Initialize_ok env cn (AceEngine.AddContainer wn instanceId cn) ab habi
    have hfinal : ∀ w2 : World, w2.registry = w1.registry →
        AceEngine.GetContainer (w2.store instanceId c1) instanceId = some c1 := by
      intro w2 h2
      rw [AceEngine.GetContainer_store, AceEngine.GetContainer_congr w2 _ _ (h2.trans hreg1),
        AceEngine.GetContainer_AddContainer_fresh wn instanceId cn hwn]
      rfl
    simp only [AceContainer.CreateContainer, hnew, hwn, hinit, Option.isNone_none, if_true]
    cases hfr : c1.GetFrontend <;>
    simp [Except.map, hGet, hfinal, World.emit, hid1, hty1, hark1, habi1, hcb1, hid, hty, hark,
      habi, hcb]
  · obtain ⟨hreg, hid, hty, hark, habi, hcb⟩ := AceContainer.new_spec
      (wd.emit (Event.InitForThread env.INSTANCE_ID_PLATFORM)) instanceId type isArkApp
      (some ab) callback
    rcases hnew : AceContainer.new (wd.emit (Event.InitForThread env.INSTANCE_ID_PLATFORM))
      instanceId type isArkApp (some ab) callback with ⟨cn, wn⟩
    rw [hnew] at hreg hid hty hark habi hcb
    simp only at hreg hid hty hark habi hcb
    have hwn : AceEngine.GetContainer wn instanceId = some c0 := by
      rw [AceEngine.GetContainer_congr wn wd _ hreg, hdup]
    have hadd : (AceEngine.AddContainer wn instanceId cn).registry = wd.registry := by
      simp [AceEngine.AddContainer, hwn, World.emit, hreg]
    obtain ⟨c1, w1, hinit, hreg1, -⟩ :=
      AceContainer.Initialize_ok env cn (AceEngine.AddContainer wn instanceId cn) ab habi
    have hfinal : ∀ w2 : World, w2.registry = w1.registry →
        AceEngine.GetContainer w2 instanceId = some c0 := by
      intro w2 h2
      rw [AceEngine.GetContainer_congr w2 wd _ ((h2.trans hreg1).trans hadd), hdup]
    simp only [AceContainer.CreateContainer, hnew, hwn, hinit, Option.isNone_some]
    cases hfr : c1.GetFrontend <;>
    simp [Except.map, hGet, hfinal, World.emit, hreg1, hadd]

/-- Witness of C19: id 1 is unregistered in the empty world and registered to
the sample live container in the sample live world. -/
theorem CreateContainer_then_GetContainer_witness :
    (AceContainer.CreateContainer Sample.env Sample.empty 1 FrontendType.JS_CARD true
        (some Sample.ability) (some 9)).map
      (fun w1 => (AceContainer.GetContainer w1 1).map
        (fun c => (c.instanceId_, c.type_, c.isArkApp_, c.aceAbility_, c.platformEventCallback_)))
      = Except.ok (some (1, FrontendType.JS_CARD, true, some Sample.ability, some 9)) ∧
    (AceContainer.CreateContainer Sample.env Sample.liveWorld 1 FrontendType.JS_CARD true
        (some Sample.ability) (some 9)).map
      (fun w1 => (w1.registry, AceContainer.GetContainer w1 1))
      = Except.ok (Sample.liveWorld.registry, some Sample.live) :=
  CreateContainer_then_GetContainer Sample.env Sample.empty Sample.liveWorld 1
    FrontendType.JS_CARD true Sample.ability (some 9) Sample.live (by decide) (by decide)

/-- C21: the constructor leaves the container with its task executor present
and the Platform role initialised, with the JS role initialised if and only if
the frontend type is not DECLARATIVE_JS, and with neither Frontend nor
Pipeline; the effects it adds are `InitPlatformThread`, then `InitJsThread`
for a type other than DECLARATIVE_JS, then the `InitForThread` task posted to
the JS role. -/
theorem constructor_roles (w : World) (instanceId : Int) (type : FrontendType) (isArkApp : Bool)
    (aceAbility : Option AceAbility) (callback : Option ObjRef) :
    (AceContainer.new w instanceId type isArkApp aceAbility callback).1.taskExecutor_ =
      some { platformThread := true,
             jsThread := if type = FrontendType.DECLARATIVE_JS then none else some true,
             otherThreads := false } ∧
    (((AceContainer.new w instanceId type isArkApp aceAbility callback).1.taskExecutor_.bind
        (fun ex => ex.jsThread)).isSome = true ↔ type ≠ FrontendType.DECLARATIVE_JS) ∧
    (AceContainer.new w instanceId type isArkApp aceAbility callback).1.frontend_ = none ∧
    (AceContainer.new w instanceId type isArkApp aceAbility callback).1.pipelineContext_ = none ∧
    addedTrace w (AceContainer.new w instanceId type isArkApp aceAbility callback).2 =
      [Event.InitPlatformThread] ++
      (if type = FrontendType.DECLARATIVE_JS then [] else [Event.InitJsThread true]) ++
      [Event.PostTask (Task.InitForThread instanceId) TaskType.JS] := by
  unfold AceContainer.new
  by_cases h : type = FrontendType.DECLARATIVE_JS <;> simp [h, World.emit, addedTrace]

/-- C23: `TriggerGarbageCollection` posts, after one purge task each to the GPU
and IO roles when those threads are standalone, one purge task to the UI role
and one task to the JS role that holds a weak handle to the Frontend; when that
task runs it calls the Frontend's `TriggerGarbageCollection` if and only if the
handle still upgrades (the Frontend was held and is alive), and calls
`PurgeMallocCache` in either case. -/
theorem TriggerGarbageCollection_posts (env : Env) (c : AceContainer) (w : World)
    (ex : TaskExecutor) (hex : c.taskExecutor_ = some ex) :
    (c.TriggerGarbageCollection env w).map (fun w1 => addedTrace w w1) = Except.ok
      ((if !env.OHOS_PLATFORM || !env.ENABLE_NATIVE_VIEW then
          [ Event.PostTask Task.PurgeMallocCache TaskType.GPU,
            Event.PostTask Task.PurgeMallocCache TaskType.IO_ ] else []) ++
        [ Event.PostTask Task.PurgeMallocCache TaskType.UI,
          Event.PostTask (Task.WeakFrontendGC c.frontend_) TaskType.JS ]) ∧
    (∀ (alive : FrontendRef → Bool) (w2 : World),
      (∀ f, c.frontend_ = some f → alive f = true →
        runWeakFrontendGC c.frontend_ alive w2 = { w2 with trace := w2.trace ++
          [ Event.Frontend f FrontendOp.TriggerGarbageCollection, Event.PurgeMallocCache ] }) ∧
      ((c.frontend_ = none ∨ ∃ f, c.frontend_ = some f ∧ alive f = false) →
        runWeakFrontendGC c.frontend_ alive w2 = { w2 with trace := w2.trace ++
          [ Event.PurgeMallocCache ] })) := by
  constructor
  · cases ho : env.OHOS_PLATFORM <;> cases hn : env.ENABLE_NATIVE_VIEW <;>
    simp [AceContainer.TriggerGarbageCollection, hex, ho, hn, World.emit, addedTrace,
      Except.map]
  · intro alive w2
    constructor
    · intro f hf ha
      simp [runWeakFrontendGC, WeakPtr.Upgrade, hf, ha, World.emit]
    · rintro (hf | ⟨f, hf, ha⟩)
      · simp [runWeakFrontendGC, WeakPtr.Upgrade, hf, World.emit]
      · simp [runWeakFrontendGC, WeakPtr.Upgrade, hf, ha, World.emit]

/-- Witness of C23 on the sample live container, whose frontend 0 is alive
when the JS task runs. -/
theorem TriggerGarbageCollection_posts_witness :
    (Sample.live.TriggerGarbageCollection Sample.env Sample.empty).map
        (fun w1 => addedTrace Sample.empty w1) = Except.ok
      [ Event.PostTask Task.PurgeMallocCache TaskType.UI,
        Event.PostTask (Task.WeakFrontendGC (some 0)) TaskType.JS ] ∧
    runWeakFrontendGC (some 0) (fun _ => true) Sample.empty = { Sample.empty with trace :=
      [ Event.Frontend 0 FrontendOp.TriggerGarbageCollection, Event.PurgeMallocCache ] } :=
  have h := TriggerGarbageCollection_posts Sample.env Sample.live Sample.empty
    { platformThread := true, jsThread := some true, otherThreads := true } rfl
  ⟨h.1, (h.2 (fun _ => true) Sample.empty).1 0 rfl rfl⟩

/-- C24: the finish and the status-bar handler hold only a weak handle to the
container. Invoked after the container has expired, or while it holds no
Pipeline, each returns the world unchanged (no task, no call); otherwise each
posts exactly one task, to the Platform role, holding the weak handle again.
When that task runs it upgrades the handle: if the container has expired it
changes nothing, otherwise it calls `OnFinish` on the container, respectively
`OnStatusBarBgColorChanged` on its platform event callback when one is set. -/
theorem weak_handlers (w : World) (color : Nat) :
    finishEventHandler none w = w ∧
    setStatusBarEventHandler none w color = w ∧
    (∀ c : AceContainer, c.pipelineContext_ = none →
      finishEventHandler (some c) w = w ∧ setStatusBarEventHandler (some c) w color = w) ∧
    (∀ (c : AceContainer) (p : PipelineRef), c.pipelineContext_ = some p →
      finishEventHandler (some c) w = { w with trace := w.trace ++
        [ Event.PostTask (Task.ContainerOnFinish c.instanceId_) TaskType.PLATFORM ] } ∧
      setStatusBarEventHandler (some c) w color = { w with trace := w.trace ++
        [ Event.PostTask (Task.StatusBarBgColorChanged c.instanceId_ color)
            TaskType.PLATFORM ] }) ∧
    runFinishTask none w = w ∧
    runStatusBarTask none color w = w ∧
    (∀ c : AceContainer, runFinishTask (some c) w = { w with trace := w.trace ++
      [ Event.ContainerOnFinish c.instanceId_ ] }) ∧
    (∀ (c : AceContainer) (callback : ObjRef), c.platformEventCallback_ = some callback →
      runStatusBarTask (some c) color w = { w with trace := w.trace ++
        [ Event.OnStatusBarBgColorChanged callback color ] }) ∧
    (∀ c : AceContainer, c.platformEventCallback_ = none →
      runStatusBarTask (some c) color w = w) := by
  refine ⟨rfl, rfl, ?_, ?_, rfl, rfl, fun c => rfl, ?_, ?_⟩
  · intro c hp
    simp [finishEventHandler, setStatusBarEventHandler, AceContainer.GetPipelineContext, hp]
  · intro c p hp
    simp [finishEventHandler, setStatusBarEventHandler, AceContainer.GetPipelineContext, hp,
      World.emit]
  · intro c callback hcb
    simp [runStatusBarTask, hcb, World.emit]
  · intro c hcb
    simp [runStatusBarTask, hcb]

/-- C27: `Dump(params)` returns true if and only if the view is present and
the view's `Dump` returns true, or the Pipeline is present; the Pipeline's
`Dump` is invoked (it is among the effects added) if and only if the view's
`Dump` did not succeed and the Pipeline is present. -/
theorem Dump_result (env : Env) (c : AceContainer) (w : World) (params : List String) :
    ((c.Dump env w params).1 = true ↔
      (∃ view, c.aceView_ = some view ∧ env.viewDump view params = true) ∨
        c.pipelineContext_.isSome = true) ∧
    ((∃ context, Event.Pipeline context (PipelineOp.Dump params) ∈
        addedTrace w (c.Dump env w params).2) ↔
      ¬ (∃ view, c.aceView_ = some view ∧ env.viewDump view params = true) ∧
        c.pipelineContext_.isSome = true) := by
  cases hv : c.aceView_ with
  | none =>
    cases hp : c.pipelineContext_ <;>
    simp [AceContainer.Dump, hv, hp, World.emit, addedTrace]
  | some view =>
    cases hd : env.viewDump view params <;> cases hp : c.pipelineContext_ <;>
    simp [AceContainer.Dump, hv, hp, hd, World.emit, addedTrace]

/-- Writing a changed container back hands out no object handle. -/
theorem World.store_nextObj (w : World) (instanceId : Int) (c : AceContainer) :
    (w.store instanceId c).nextObj = w.nextObj := rfl

/-- `rfind` finds nothing in a list without the character. -/
theorem rfind_eq_none (c : Char) (l : List Char) (h : c ∉ l) : rfind c l = none := by
  induction l with
  | nil => rfl
  | cons x xs ih =>
    have hx : ¬ x = c := fun e => h (by simp [e])
    have hxs : c ∉ xs := fun e => h (List.mem_cons_of_mem _ e)
    simp [rfind, ih hxs, hx]

/-- `rfind` finds the last occurrence: the one with no further occurrence
behind it. -/
theorem rfind_last (c : Char) (pre post : List Char) (h : c ∉ post) :
    rfind c (pre ++ c :: post) = some pre.length := by
  induction pre with
  | nil => simp [rfind, rfind_eq_none c post h]
  | cons x xs ih => simp [rfind, ih]

/-- C28: for a registered container on which `AddAssetPath` does not fault (it
holds an asset manager, or is declarative, or holds a Frontend), the asset
manager afterwards is the one held before, or a new one (under the next unused
handle) only when none was held. For a non-empty packagePath its package path
is set to the prefix of packagePath before its last '/' (all of packagePath
when it has no '/') followed by "/lib/arm64" or "/lib/arm", whether or not the
asset provider initialised, and the provider is pushed exactly when it
initialised; for an empty packagePath the manager is left as it was (no
provider, no package path). -/
theorem AddAssetPath_package_path (env : Env) (w : World) (instanceId : Int) (c : AceContainer)
    (packagePath : String) (paths : List String)
    (hget : AceEngine.GetContainer w instanceId = some c)
    (hsafe : c.assetManager_.isSome = true ∨ c.type_ = FrontendType.DECLARATIVE_JS ∨
      c.frontend_.isSome = true) :
    (AceContainer.AddAssetPath env w instanceId packagePath paths).map
      (fun w1 => ((AceEngine.GetContainer w1 instanceId).bind (fun c1 => c1.assetManager_),
        w1.nextObj)) =
      Except.ok
        (some
          (if packagePath.isEmpty then
            c.assetManager_.getD { ref := w.nextObj, providers := [], packagePath := "" }
          else
            { ref := (c.assetManager_.getD
                { ref := w.nextObj, providers := [], packagePath := "" }).ref,
              providers := (c.assetManager_.getD
                  { ref := w.nextObj, providers := [], packagePath := "" }).providers ++
                (if env.assetProviderInit packagePath paths then
                  [{ packagePath := packagePath, paths := paths }] else []),
              packagePath := (substr0 packagePath (rfind '/' packagePath.data)).append
                (if env.ARM64 then "/lib/arm64" else "/lib/arm") }),
          if c.assetManager_.isSome then w.nextObj else w.nextObj + 1) ∧
    (∀ pre post : List Char, packagePath.data = pre ++ '/' :: post → '/' ∉ post →
      substr0 packagePath (rfind '/' packagePath.data) = String.mk pre) ∧
    ('/' ∉ packagePath.data → substr0 packagePath (rfind '/' packagePath.data) = packagePath) := by
  have hstore : ∀ (w2 : World) (c2 : AceContainer), w2.registry = w.registry →
      AceEngine.GetContainer (w2.store instanceId c2) instanceId = some c2 := by
    intro w2 c2 h
    rw [AceEngine.GetContainer_store, AceEngine.GetContainer_congr w2 w _ h, hget]
    rfl
  refine ⟨?_, ?_, ?_⟩
  · cases hm : c.assetManager_ with
    | some m =>
      cases hi : env.assetProviderInit packagePath paths <;> cases he : packagePath.isEmpty <;>
      simp [AceContainer.AddAssetPath, hget, hm, hi, he, hstore, Except.map, World.store_nextObj,
        ASSET_LIBARCH_PATH]
    | none =>
      rw [hm] at hsafe
      by_cases ht : c.type_ = FrontendType.DECLARATIVE_JS
      · cases hi : env.assetProviderInit packagePath paths <;> cases he : packagePath.isEmpty <;>
        simp [AceContainer.AddAssetPath, hget, hm, hi, he, ht, hstore, Except.map, World.store_nextObj,
          ASSET_LIBARCH_PATH, World.alloc]
      · cases hf : c.frontend_ with
        | none => simp [ht, hf] at hsafe
        | some f =>
          cases hi : env.assetProviderInit packagePath paths <;>
            cases he : packagePath.isEmpty <;>
          simp [AceContainer.AddAssetPath, hget, hm, hi, he, ht, hf, hstore, Except.map, World.store_nextObj,
            ASSET_LIBARCH_PATH, World.alloc, World.emit]
  · intro pre post hdata hpost
    rw [hdata, rfind_last '/' pre post hpost]
    simp [substr0, hdata]
  · intro hno
    rw [rfind_eq_none '/' _ hno]
    rfl

/-- Witness of C28: the first asset path of the sample created container, a
JS container that holds frontend 0 and no asset manager. -/
theorem AddAssetPath_package_path_witness :
    (AceContainer.AddAssetPath Sample.env Sample.createdWorld 1 "/data/app/entry.hap" ["js"]).map
      (fun w1 => ((AceEngine.GetContainer w1 1).bind (fun c1 => c1.assetManager_), w1.nextObj)) =
      Except.ok
        (some { ref := 2, providers := [{ packagePath := "/data/app/entry.hap", paths := ["js"] }],
                packagePath := "/data/app/lib/arm64" }, 3) :=
  (AddAssetPath_package_path Sample.env Sample.createdWorld 1 Sample.created
    "/data/app/entry.hap" ["js"] (by decide) (by decide)).1.trans
    (congrArg Except.ok (by decide))

/-- After a container was added under an unregistered id and the registered
object was changed, the lookup finds the changed object. -/
theorem AceEngine.GetContainer_store_added (w : World) (instanceId : Int) (c0 c : AceContainer)
    (t : List Event) (n : Nat) (h : AceEngine.GetContainer w instanceId = none) :
    AceEngine.GetContainer
      (World.store { registry := w.registry ++ [(instanceId, c0)], trace := t, nextObj := n }
        instanceId c) instanceId = some c := by
  rw [AceEngine.GetContainer_store]
  have hfind : List.find? (fun e => e.1 == instanceId) w.registry = none := by
    simpa [AceEngine.GetContainer] using h
  simp [AceEngine.GetContainer, List.find?_append, hfind]

/-- What a run added does not depend on a container written back before it. -/
theorem addedTrace_store_left (w w1 : World) (instanceId : Int) (c : AceContainer) :
    addedTrace (w.store instanceId c) w1 = addedTrace w w1 := rfl

/-- An observation of a successful run can be paired with a value fixed
before the run. -/
theorem Except.map_pair_of_map {ε α β γ : Type} (x : Except ε α) (f : α → β) (a : γ) (y : β)
    (h : x.map f = Except.ok y) : x.map (fun r => (a, f r)) = Except.ok (a, y) := by
  cases x with
  | error e => simp [Except.map] at h
  | ok r =>
    simp only [Except.map, Except.ok.injEq] at h
    simp [Except.map, h]

/-- The creation deliveries of a successful `SetView` on a registered
container: the two calls on the new frontend for the declarative variant, none
for a container that already holds its frontend. -/
theorem SetView_create_deliveries (env : Env) (w : World) (v : AceView) (c : AceContainer)
    (ex : TaskExecutor) (ab : AceAbility) (window : ObjRef) (density : Scalar)
    (width height : Int)
    (hget : AceEngine.GetContainer w v.instanceId = some c)
    (hex : c.taskExecutor_ = some ex) (hab : c.aceAbility_ = some ab)
    (hwin : env.platformWindowCreate v = some window)
    (hstate : env.hasDartState v.instanceId = true) :
    (c.type_ = FrontendType.DECLARATIVE_JS →
      (AceContainer.SetView env w (some v) density width height).map
        (fun w2 => ((addedTrace w w2).filter Event.isCreateDelivery,
          (AceEngine.GetContainer w2 v.instanceId).bind (fun c2 => c2.frontend_)))
        = Except.ok
          ([ Event.Frontend w.nextObj (FrontendOp.UpdateState FrontendState.ON_CREATE),
             Event.Frontend w.nextObj (FrontendOp.SetJsMessageDispatcher c.instanceId_) ],
            some w.nextObj)) ∧
    (∀ f, c.type_ ≠ FrontendType.DECLARATIVE_JS → c.frontend_ = some f →
      (AceContainer.SetView env w (some v) density width height).map
        (fun w2 => ((addedTrace w w2).filter Event.isCreateDelivery,
          (AceEngine.GetContainer w2 v.instanceId).bind (fun c2 => c2.frontend_)))
        = Except.ok ([], some f)) := by
  have hstore : ∀ (w2 : World) (c2 : AceContainer), w2.registry = w.registry →
      AceEngine.GetContainer (w2.store v.instanceId c2) v.instanceId = some c2 := by
    intro w2 c2 h
    rw [AceEngine.GetContainer_store, AceEngine.GetContainer_congr w2 w _ h, hget]
    rfl
  constructor
  · intro hty
    rcases ab with ⟨abref, abinfo⟩
    rcases abinfo with _ | ⟨⟨launcher⟩⟩ <;> [skip; cases launcher] <;>
    · simp only [AceContainer.SetView, hget, hwin, AceContainer.AttachView,
        AceContainer.attachViewRoles, AceContainer.InitializeFrontend,
        AceContainer.constructFrontend, AceContainer.InitializeCallback,
        AceContainer.GetFrontend, hex, hab, hty, hstate, World.emit, World.alloc]
      simp [Except.map, hstore, addedTrace_store, addedTrace_append, Event.isCreateDelivery]
  · intro f ht hf
    cases hty : c.type_ with
    | DECLARATIVE_JS => exact absurd hty ht
    | JS =>
      simp only [AceContainer.SetView, hget, hwin, AceContainer.AttachView,
        AceContainer.attachViewRoles, AceContainer.InitializeCallback, hex, hf, hty, hstate,
        World.emit, World.alloc]
      simp [Except.map, hstore, addedTrace_store, addedTrace_append, Event.isCreateDelivery]
    | JS_CARD =>
      simp only [AceContainer.SetView, hget, hwin, AceContainer.AttachView,
        AceContainer.attachViewRoles, AceContainer.InitializeCallback, hex, hf, hty, hstate,
        World.emit, World.alloc]
      simp [Except.map, hstore, addedTrace_store, addedTrace_append, Event.isCreateDelivery]
    | UNSUPPORTED raw =>
      simp only [AceContainer.SetView, hget, hwin, AceContainer.AttachView,
        AceContainer.attachViewRoles, AceContainer.InitializeCallback, hex, hf, hty, hstate,
        World.emit, World.alloc]
      simp [Except.map, hstore, addedTrace_store, addedTrace_append, Event.isCreateDelivery]

/-- What `CreateContainer` leaves for a supported frontend type and an
unregistered id: it returns, the registered container has the type, the
executor and the ability, holds the new frontend unless declarative, and the
creation was delivered to that frontend unless declarative. -/
theorem CreateContainer_supported_summary (env : Env) (w : World) (instanceId : Int)
    (type : FrontendType) (isArkApp : Bool) (ab : AceAbility) (callback : Option ObjRef)
    (hsup : type = FrontendType.JS ∨ type = FrontendType.JS_CARD ∨
      type = FrontendType.DECLARATIVE_JS)
    (hfresh : AceEngine.GetContainer w instanceId = none) :
    ∃ w1 c1 ex, AceContainer.CreateContainer env w instanceId type isArkApp (some ab) callback
        = Except.ok w1 ∧
      AceEngine.GetContainer w1 instanceId = some c1 ∧ c1.type_ = type ∧
      c1.instanceId_ = instanceId ∧ c1.taskExecutor_ = some ex ∧ c1.aceAbility_ = some ab ∧
      c1.frontend_ = (if type = FrontendType.DECLARATIVE_JS then none else some w.nextObj) ∧
      (type = FrontendType.DECLARATIVE_JS → w1.nextObj = w.nextObj) ∧
      (addedTrace w w1).filter Event.isCreateDelivery =
        (if type = FrontendType.DECLARATIVE_JS then [] else
          [ Event.Frontend w.nextObj (FrontendOp.UpdateState FrontendState.ON_CREATE),
            Event.Frontend w.nextObj (FrontendOp.SetJsMessageDispatcher instanceId) ]) := by
  have hfr : ∀ t n, AceEngine.GetContainer
      { registry := w.registry, trace := t, nextObj := n } instanceId = none := by
    intro t n
    exact (AceEngine.GetContainer_congr _ w _ rfl).trans hfresh
  rcases ab with ⟨abref, abinfo⟩
  rcases hsup with rfl | rfl | rfl <;>
    rcases abinfo with _ | ⟨⟨launcher⟩⟩ <;>
    [skip; cases launcher; skip; cases launcher; skip; cases launcher] <;>
  · simp only [AceContainer.CreateContainer, AceContainer.new, AceContainer.Initialize,
      AceContainer.InitializeFrontend, AceContainer.constructFrontend,
      AceContainer.GetFrontend, World.emit, World.alloc, AceEngine.AddContainer, hfr, ne_eq,
      reduceCtorEq, not_false_eq_true, not_true_eq_false, if_true, if_false,
      Option.isNone_none, Bool.false_eq_true]
    refine ⟨_, _, _, rfl, AceEngine.GetContainer_store_added w _ _ _ _ _ hfresh, rfl, rfl, rfl,
      rfl, rfl, ?_, ?_⟩
    · simp [World.store_nextObj]
    · simp [addedTrace_store, addedTrace_append, Event.isCreateDelivery]

/-- C26: for each supported frontend type, `CreateContainer` for an
unregistered id followed by one successful `SetView` delivers
`UpdateState(ON_CREATE)` to the container's Frontend exactly once and sets its
message dispatcher exactly once: both during `CreateContainer` and none during
`SetView` for JS and JS_CARD, none during `CreateContainer` and both during
`SetView` (in `AttachView`) for DECLARATIVE_JS. -/
theorem create_then_attach_delivers_once (env : Env) (w : World) (v : AceView)
    (type : FrontendType) (isArkApp : Bool) (ab : AceAbility) (callback : Option ObjRef)
    (window : ObjRef) (density : Scalar) (width height : Int)
    (hsup : type = FrontendType.JS ∨ type = FrontendType.JS_CARD ∨
      type = FrontendType.DECLARATIVE_JS)
    (hfresh : AceEngine.GetContainer w v.instanceId = none)
    (hwin : env.platformWindowCreate v = some window)
    (hstate : env.hasDartState v.instanceId = true) :
    (AceContainer.CreateContainer env w v.instanceId type isArkApp (some ab) callback).bind
      (fun w1 => (AceContainer.SetView env w1 (some v) density width height).map
        (fun w2 => ((addedTrace w w1).filter Event.isCreateDelivery,
          (addedTrace w1 w2).filter Event.isCreateDelivery,
          (AceEngine.GetContainer w2 v.instanceId).bind (fun c2 => c2.frontend_))))
      = Except.ok
        (if type = FrontendType.DECLARATIVE_JS then
          ([],
            [ Event.Frontend w.nextObj (FrontendOp.UpdateState FrontendState.ON_CREATE),
              Event.Frontend w.nextObj (FrontendOp.SetJsMessageDispatcher v.instanceId) ],
            some w.nextObj)
        else
          ([ Event.Frontend w.nextObj (FrontendOp.UpdateState FrontendState.ON_CREATE),
             Event.Frontend w.nextObj (FrontendOp.SetJsMessageDispatcher v.instanceId) ],
            [], some w.nextObj)) := by
  obtain ⟨w1, c1, ex, hrun, hget, hty, hid, hex, hab, hfront, hnext, hdel⟩ :=
    CreateContainer_supported_summary env w v.instanceId type isArkApp ab callback hsup hfresh
  obtain ⟨hdecl, hother⟩ := SetView_create_deliveries env w1 v c1 ex ab window density width
    height hget hex hab hwin hstate
  rw [hrun]
  show (AceContainer.SetView env w1 (some v) density width height).map _ = _
  by_cases ht : type = FrontendType.DECLARATIVE_JS
  · have h2 := hdecl (hty.trans ht)
    rw [hnext ht, hid] at h2
    rw [hdel, if_pos ht, if_pos ht]
    exact Except.map_pair_of_map _ _ _ _ h2
  · rw [if_neg ht] at hfront
    have h2 := hother w.nextObj (fun h => ht (hty.symm.trans h)) hfront
    rw [hdel, if_neg ht, if_neg ht]
    exact Except.map_pair_of_map _ _ _ _ h2

/-- Witness of C26: a JS container for id 1 created in the empty world, then
the sample view attached. -/
theorem create_then_attach_delivers_once_witness :
    (AceContainer.CreateContainer Sample.env Sample.empty 1 FrontendType.JS false
        (some Sample.ability) (some 9)).bind
      (fun w1 => (AceContainer.SetView Sample.env w1 (some Sample.view) (Scalar.mk 0) 10 20).map
        (fun w2 => ((addedTrace Sample.empty w1).filter Event.isCreateDelivery,
          (addedTrace w1 w2).filter Event.isCreateDelivery,
          (AceEngine.GetContainer w2 1).bind (fun c2 => c2.frontend_))))
      = Except.ok
          ([ Event.Frontend 0 (FrontendOp.UpdateState FrontendState.ON_CREATE),
             Event.Frontend 0 (FrontendOp.SetJsMessageDispatcher 1) ],
            [], some 0) :=
  create_then_attach_delivers_once Sample.env Sample.empty Sample.view FrontendType.JS false
    Sample.ability (some 9) 1005 (Scalar.mk 0) 10 20 (Or.inl rfl) (by decide) rfl rfl

/-- The world property of C25, element by element. -/
theorem World.pipelinesHaveFrontends_iff (w : World) :
    w.pipelinesHaveFrontends = true ↔ ∀ e ∈ w.registry, e.2.pipelineHasFrontend = true := by
  simp [World.pipelinesHaveFrontends, List.all_eq_true]

/-- The property depends on the registry only. -/
theorem World.pipelinesHaveFrontends_congr (w w1 : World) (h : w1.registry = w.registry)
    (hw : w.pipelinesHaveFrontends = true) : w1.pipelinesHaveFrontends = true := by
  simpa [World.pipelinesHaveFrontends, h] using hw

/-- Writing back a container with the property keeps the property. -/
theorem World.pipelinesHaveFrontends_store (w : World) (instanceId : Int) (c : AceContainer)
    (hw : w.pipelinesHaveFrontends = true) (hc : c.pipelineHasFrontend = true) :
    (w.store instanceId c).pipelinesHaveFrontends = true := by
  rw [World.pipelinesHaveFrontends_iff] at hw ⊢
  intro e he
  simp only [World.store, List.mem_map] at he
  obtain ⟨e0, he0, rfl⟩ := he
  by_cases hid : (e0.1 == instanceId) = true
  · simp [hid, hc]
  · simp only [hid, if_false, Bool.false_eq_true]
    exact hw e0 he0

/-- Removing an entry keeps the property. -/
theorem World.pipelinesHaveFrontends_remove (w : World) (instanceId : Int)
    (hw : w.pipelinesHaveFrontends = true) :
    (AceEngine.RemoveContainer w instanceId).pipelinesHaveFrontends = true := by
  rw [World.pipelinesHaveFrontends_iff] at hw ⊢
  intro e he
  simp only [AceEngine.RemoveContainer, World.emit, List.mem_filter] at he
  exact hw e he.1

/-- Adding a container with the property keeps the property. -/
theorem World.pipelinesHaveFrontends_add (w : World) (instanceId : Int) (c : AceContainer)
    (hw : w.pipelinesHaveFrontends = true) (hc : c.pipelineHasFrontend = true) :
    (AceEngine.AddContainer w instanceId c).pipelinesHaveFrontends = true := by
  rw [World.pipelinesHaveFrontends_iff] at hw ⊢
  intro e he
  unfold AceEngine.AddContainer at he
  cases hget : AceEngine.GetContainer w instanceId with
  | some c0 =>
    simp only [hget, World.emit] at he
    exact hw e he
  | none =>
    simp only [hget, World.emit, List.mem_append, List.mem_singleton] at he
    rcases he with he | rfl
    · exact hw e he
    · exact hc

/-- A container found by a lookup has the property of the world. -/
theorem World.pipelinesHaveFrontends_get (w : World) (instanceId : Int) (c : AceContainer)
    (hw : w.pipelinesHaveFrontends = true) (hget : AceEngine.GetContainer w instanceId = some c) :
    c.pipelineHasFrontend = true := by
  rw [World.pipelinesHaveFrontends_iff] at hw
  simp only [AceEngine.GetContainer, Option.map_eq_some'] at hget
  obtain ⟨e, he, rfl⟩ := hget
  exact hw e (List.mem_of_find?_eq_some he)

/-- `Destroy()` leaves the registry alone and keeps the property: it empties
the Pipeline and the Frontend together or neither. -/
theorem AceContainer.Destroy_keeps (c : AceContainer) (w : World)
    (hc : c.pipelineHasFrontend = true) :
    (c.Destroy w).2.registry = w.registry ∧ (c.Destroy w).1.pipelineHasFrontend = true := by
  unfold AceContainer.Destroy
  cases hp : c.pipelineContext_ <;> cases he : c.taskExecutor_ <;>
  simp_all [AceContainer.pipelineHasFrontend, World.emit]

/-- `DestroyView()` leaves the registry alone and keeps the property. -/
theorem AceContainer.DestroyView_keeps (c : AceContainer) (w : World)
    (hc : c.pipelineHasFrontend = true) :
    (c.DestroyView w).2.registry = w.registry ∧
      (c.DestroyView w).1.pipelineHasFrontend = true := by
  unfold AceContainer.DestroyView
  cases hv : c.aceView_ <;> simp_all [AceContainer.pipelineHasFrontend, World.emit]

/-- A returning `InitializeFrontend()` leaves the registry and the Pipeline
field alone. -/
theorem AceContainer.InitializeFrontend_keeps (env : Env) (c c1 : AceContainer) (w w1 : World)
    (h : c.InitializeFrontend env w = Except.ok (c1, w1)) :
    w1.registry = w.registry ∧ c1.pipelineContext_ = c.pipelineContext_ := by
  unfold AceContainer.InitializeFrontend AceContainer.constructFrontend at h
  cases ht : c.type_ <;> cases hab : c.aceAbility_ <;> simp only [ht, hab, World.alloc] at h
  all_goals first
    | (cases h; exact ⟨rfl, rfl⟩)
    | (simp only [Except.ok.injEq, Prod.mk.injEq, reduceCtorEq] at h)
  all_goals
    obtain ⟨rfl, rfl⟩ := h
    constructor
    · split <;> [split; skip] <;> rfl
    · rfl

/-- A returning `InitializeCallback()` leaves the registry alone. -/
theorem AceContainer.InitializeCallback_keeps (c : AceContainer) (w w1 : World)
    (h : c.InitializeCallback w = Except.ok w1) : w1.registry = w.registry := by
  unfold AceContainer.InitializeCallback at h
  cases hv : c.aceView_ <;> simp only [hv, reduceCtorEq, Except.ok.injEq] at h
  subst h
  rfl

/-- A returning `AttachView` leaves the registry alone and leaves the
container holding a Frontend: its last but one statement dereferences it. -/
theorem AceContainer.AttachView_keeps (env : Env) (c c1 : AceContainer) (w w1 : World)
    (window : ObjRef) (view : Option AceView) (density : Scalar) (width height : Int)
    (h : c.AttachView env w window view density width height = Except.ok (c1, w1)) :
    w1.registry = w.registry ∧ c1.frontend_.isSome = true := by
  unfold AceContainer.AttachView at h
  cases hroles : c.attachViewRoles env w view with
  | error e => simp [hroles] at h
  | ok r =>
    obtain ⟨c2, aceView, w2⟩ := r
    have hreg2 : w2.registry = w.registry := by
      unfold AceContainer.attachViewRoles at hroles
      cases view with
      | none => simp at hroles
      | some v =>
        cases hs : env.hasDartState v.instanceId <;> cases hex : c.taskExecutor_ <;>
          simp only [hs, hex, Bool.not_false, Bool.not_true, if_true, if_false,
            Bool.false_eq_true, reduceCtorEq] at hroles
        by_cases ht : c.type_ = FrontendType.DECLARATIVE_JS
        · simp only [ht, if_true] at hroles
          split at hroles
          · simp at hroles
          · rename_i c3 w3 hinit
            have hk := (AceContainer.InitializeFrontend_keeps env _ c3 _ w3 hinit).1
            split at hroles <;>
            · simp only [Except.ok.injEq, Prod.mk.injEq] at hroles
              obtain ⟨-, -, rfl⟩ := hroles
              simpa [World.emit] using hk
        · simp only [ht, if_false] at hroles
          split at hroles <;>
          · simp only [Except.ok.injEq, Prod.mk.injEq] at hroles
            obtain ⟨-, -, rfl⟩ := hroles
            rfl
    simp only [hroles, World.alloc, World.emit] at h
    split at h
    · simp at h
    · rename_i w3 hcb
      have hk := AceContainer.InitializeCallback_keeps _ _ w3 hcb
      split at h
      · simp at h
      · rename_i f hf
        simp only [Except.ok.injEq, Prod.mk.injEq] at h
        obtain ⟨rfl, rfl⟩ := h
        refine ⟨?_, ?_⟩
        · simpa using hk.trans hreg2
        · simpa using congrArg Option.isSome hf

/-- The entry points that only forward to the Frontend or the Pipeline leave
the registry alone. -/
theorem forwarding_entry_points_keep_registry (env : Env) (w : World) (instanceId : Int) :
    (AceContainer.OnShow env w instanceId).registry = w.registry ∧
    (AceContainer.OnHide env w instanceId).registry = w.registry ∧
    (AceContainer.OnActive w instanceId).registry = w.registry ∧
    (AceContainer.OnInactive w instanceId).registry = w.registry ∧
    (AceContainer.OnBackPressed env w instanceId).2.registry = w.registry ∧
    (AceContainer.OnStartContinuation env w instanceId).2.registry = w.registry ∧
    (AceContainer.OnSaveData env w instanceId).2.registry = w.registry ∧
    (∀ data, (AceContainer.OnRestoreData env w instanceId data).2.registry = w.registry) ∧
    (∀ result, (AceContainer.OnCompleteContinuation w instanceId result).registry
      = w.registry) ∧
    (AceContainer.OnRemoteTerminated w instanceId).registry = w.registry ∧
    (∀ configuration, (AceContainer.OnConfigurationUpdated w instanceId configuration).registry
      = w.registry) ∧
    (∀ data, (AceContainer.OnNewRequest w instanceId data).registry = w.registry) ∧
    (∀ pageId content params,
      (AceContainer.RunPage w instanceId pageId content params).2.registry = w.registry) ∧
    (∀ content params,
      (AceContainer.PushPage w instanceId content params).2.registry = w.registry) ∧
    (∀ pageId content,
      (AceContainer.UpdatePage env w instanceId pageId content).2.registry = w.registry) ∧
    (∀ fontScale, (AceContainer.SetFontScale w instanceId fontScale).registry = w.registry) := by
  unfold AceContainer.OnShow AceContainer.OnHide AceContainer.OnActive AceContainer.OnInactive
    AceContainer.OnBackPressed AceContainer.OnStartContinuation AceContainer.OnSaveData
    AceContainer.OnRestoreData AceContainer.OnCompleteContinuation
    AceContainer.OnRemoteTerminated AceContainer.OnConfigurationUpdated
    AceContainer.OnNewRequest AceContainer.RunPage AceContainer.PushPage
    AceContainer.UpdatePage AceContainer.SetFontScale
  cases hget : AceEngine.GetContainer w instanceId with
  | none => simp
  | some c =>
    cases hf : c.GetFrontend <;> cases hp : c.GetPipelineContext <;>
      cases hex : c.GetTaskExecutor <;> cases hw : env.WEARABLE_PRODUCT <;>
    simp [hf, hp, hex, hw, World.emit]

/-- One call that returns keeps the property of C25. -/
theorem Call.run_keeps (env : Env) (w w1 : World) (call : Call)
    (hw : w.pipelinesHaveFrontends = true) (h : call.run env w = Except.ok w1) :
    w1.pipelinesHaveFrontends = true := by
  have hfwd := fun instanceId => forwarding_entry_points_keep_registry env w instanceId
  cases call with
  | CreateContainer instanceId type isArkApp aceAbility callback =>
    simp only [Call.run, AceContainer.CreateContainer] at h
    rcases hnew : AceContainer.new (w.emit (Event.InitForThread env.INSTANCE_ID_PLATFORM))
      instanceId type isArkApp aceAbility callback with ⟨cn, wn⟩
    have hspec := AceContainer.new_spec (w.emit (Event.InitForThread env.INSTANCE_ID_PLATFORM))
      instanceId type isArkApp aceAbility callback
    have hcn : cn.pipelineContext_ = none := by
      have := congrArg (fun r => r.1.pipelineContext_) hnew
      simp only at this
      rw [← this]
      unfold AceContainer.new
      by_cases ht : type = FrontendType.DECLARATIVE_JS <;> simp [ht]
    rw [hnew] at hspec
    have hwn : wn.pipelinesHaveFrontends = true :=
      World.pipelinesHaveFrontends_congr w wn hspec.1 hw
    simp only [hnew] at h
    cases hinit : cn.Initialize env (AceEngine.AddContainer wn instanceId cn) with
    | error e => simp [hinit] at h
    | ok r =>
      obtain ⟨c1, w2⟩ := r
      have hk : w2.registry = (AceEngine.AddContainer wn instanceId cn).registry ∧
          c1.pipelineContext_ = cn.pipelineContext_ := by
        unfold AceContainer.Initialize at hinit
        by_cases ht : cn.type_ = FrontendType.DECLARATIVE_JS
        · simp only [ht, ne_eq, not_true_eq_false, if_false, Except.ok.injEq,
            Prod.mk.injEq] at hinit
          obtain ⟨rfl, rfl⟩ := hinit
          exact ⟨rfl, rfl⟩
        · simp only [ne_eq, ht, not_false_eq_true, if_true] at hinit
          exact AceContainer.InitializeFrontend_keeps env cn c1 _ w2 hinit
      have hc1 : c1.pipelineHasFrontend = true := by
        simp [AceContainer.pipelineHasFrontend, hk.2, hcn]
      have hcn2 : cn.pipelineHasFrontend = true := by
        simp [AceContainer.pipelineHasFrontend, hcn]
      have hw2 : w2.pipelinesHaveFrontends = true :=
        World.pipelinesHaveFrontends_congr _ w2 hk.1
          (World.pipelinesHaveFrontends_add wn instanceId cn hwn hcn2)
      simp only [hinit, Except.ok.injEq] at h
      subst h
      have hw3 : ∀ w3 : World, w3.registry = w2.registry →
          w3.pipelinesHaveFrontends = true :=
        fun w3 h3 => World.pipelinesHaveFrontends_congr w2 w3 h3 hw2
      cases hfr : c1.GetFrontend <;> split <;>
        first
          | exact World.pipelinesHaveFrontends_store _ _ _ (hw3 _ rfl) hc1
          | exact hw3 _ rfl
  | SetView view density width height =>
    simp only [Call.run, AceContainer.SetView] at h
    cases view with
    | none => simp only [Except.ok.injEq] at h; subst h; exact hw
    | some v =>
      simp only at h
      cases hget : AceEngine.GetContainer w v.instanceId with
      | none => simp only [hget, Except.ok.injEq] at h; subst h; exact hw
      | some c =>
        cases hwin : env.platformWindowCreate v with
        | none => simp only [hget, hwin, Except.ok.injEq] at h; subst h; exact hw
        | some window =>
          simp only [hget, hwin] at h
          cases hat : c.AttachView env w window (some v) density width height with
          | error e => simp [hat] at h
          | ok r =>
            obtain ⟨c1, w2⟩ := r
            have hk := AceContainer.AttachView_keeps env c c1 w w2 window (some v) density width
              height hat
            simp only [hat, Except.ok.injEq] at h
            subst h
            exact World.pipelinesHaveFrontends_store _ _ _
              (World.pipelinesHaveFrontends_congr w w2 hk.1 hw)
              (by simp [AceContainer.pipelineHasFrontend, hk.2])
  | AddAssetPath instanceId packagePath paths =>
    simp only [Call.run, AceContainer.AddAssetPath] at h
    cases hget : AceEngine.GetContainer w instanceId with
    | none => simp only [hget, Except.ok.injEq] at h; subst h; exact hw
    | some c =>
      have hc := World.pipelinesHaveFrontends_get w instanceId c hw hget
      simp only [hget, World.alloc, World.emit] at h
      cases hm : c.assetManager_ with
      | some m =>
        simp only [hm, Except.ok.injEq] at h
        subst h
        exact World.pipelinesHaveFrontends_store _ _ _ hw
          (by simpa [AceContainer.pipelineHasFrontend] using hc)
      | none =>
        simp only [hm] at h
        by_cases ht : c.type_ = FrontendType.DECLARATIVE_JS
        · simp only [ht, ne_eq, not_true_eq_false, if_false, Except.ok.injEq] at h
          subst h
          exact World.pipelinesHaveFrontends_store _ _ _
            (World.pipelinesHaveFrontends_congr w _ rfl hw)
            (by simpa [AceContainer.pipelineHasFrontend] using hc)
        · cases hf : c.frontend_ with
          | none => simp [ht, hf] at h
          | some f =>
            simp only [ht, hf, ne_eq, not_false_eq_true, if_true, Except.ok.injEq] at h
            subst h
            exact World.pipelinesHaveFrontends_store _ _ _
              (World.pipelinesHaveFrontends_congr w _ rfl hw)
              (by simp [AceContainer.pipelineHasFrontend, hf])
  | OnShow instanceId =>
    simp only [Call.run, Except.ok.injEq] at h; subst h
    exact World.pipelinesHaveFrontends_congr w _ (hfwd instanceId).1 hw
  | OnHide instanceId =>
    simp only [Call.run, Except.ok.injEq] at h; subst h
    exact World.pipelinesHaveFrontends_congr w _ (hfwd instanceId).2.1 hw
  | OnActive instanceId =>
    simp only [Call.run, Except.ok.injEq] at h; subst h
    exact World.pipelinesHaveFrontends_congr w _ (hfwd instanceId).2.2.1 hw
  | OnInactive instanceId =>
    simp only [Call.run, Except.ok.injEq] at h; subst h
    exact World.pipelinesHaveFrontends_congr w _ (hfwd instanceId).2.2.2.1 hw
  | OnBackPressed instanceId =>
    simp only [Call.run, Except.ok.injEq] at h; subst h
    exact World.pipelinesHaveFrontends_congr w _ (hfwd instanceId).2.2.2.2.1 hw
  | OnStartContinuation instanceId =>
    simp only [Call.run, Except.ok.injEq] at h; subst h
    exact World.pipelinesHaveFrontends_congr w _ (hfwd instanceId).2.2.2.2.2.1 hw
  | OnSaveData instanceId =>
    simp only [Call.run, Except.ok.injEq] at h; subst h
    exact World.pipelinesHaveFrontends_congr w _ (hfwd instanceId).2.2.2.2.2.2.1 hw
  | OnRestoreData instanceId data =>
    simp only [Call.run, Except.ok.injEq] at h; subst h
    exact World.pipelinesHaveFrontends_congr w _ ((hfwd instanceId).2.2.2.2.2.2.2.1 data) hw
  | OnCompleteContinuation instanceId result =>
    simp only [Call.run, Except.ok.injEq] at h; subst h
    exact World.pipelinesHaveFrontends_congr w _
      ((hfwd instanceId).2.2.2.2.2.2.2.2.1 result) hw
  | OnRemoteTerminated instanceId =>
    simp only [Call.run, Except.ok.injEq] at h; subst h
    exact World.pipelinesHaveFrontends_congr w _ (hfwd instanceId).2.2.2.2.2.2.2.2.2.1 hw
  | OnConfigurationUpdated instanceId configuration =>
    simp only [Call.run, Except.ok.injEq] at h; subst h
    exact World.pipelinesHaveFrontends_congr w _
      ((hfwd instanceId).2.2.2.2.2.2.2.2.2.2.1 configuration) hw
  | OnNewRequest instanceId data =>
    simp only [Call.run, Except.ok.injEq] at h; subst h
    exact World.pipelinesHaveFrontends_congr w _
      ((hfwd instanceId).2.2.2.2.2.2.2.2.2.2.2.1 data) hw
  | RunPage instanceId pageId content params =>
    simp only [Call.run, Except.ok.injEq] at h; subst h
    exact World.pipelinesHaveFrontends_congr w _
      ((hfwd instanceId).2.2.2.2.2.2.2.2.2.2.2.2.1 pageId content params) hw
  | PushPage instanceId content params =>
    simp only [Call.run, Except.ok.injEq] at h; subst h
    exact World.pipelinesHaveFrontends_congr w _
      ((hfwd instanceId).2.2.2.2.2.2.2.2.2.2.2.2.2.1 content params) hw
  | UpdatePage instanceId pageId content =>
    simp only [Call.run, Except.ok.injEq] at h; subst h
    exact World.pipelinesHaveFrontends_congr w _
      ((hfwd instanceId).2.2.2.2.2.2.2.2.2.2.2.2.2.2.1 pageId content) hw
  | SetFontScale instanceId fontScale =>
    simp only [Call.run, Except.ok.injEq] at h; subst h
    exact World.pipelinesHaveFrontends_congr w _
      ((hfwd instanceId).2.2.2.2.2.2.2.2.2.2.2.2.2.2.2 fontScale) hw
  | SetWindowStyle instanceId windowModal colorScheme =>
    simp only [Call.run, AceContainer.SetWindowStyle, Except.ok.injEq] at h
    cases hget : AceEngine.GetContainer w instanceId with
    | none => simp only [hget] at h; subst h; exact hw
    | some c =>
      have hc := World.pipelinesHaveFrontends_get w instanceId c hw hget
      simp only [hget] at h
      subst h
      exact World.pipelinesHaveFrontends_store _ _ _ hw
        (by simpa [AceContainer.pipelineHasFrontend, AceContainer.SetWindowModal,
          AceContainer.SetColorScheme] using hc)
  | Destroy instanceId =>
    simp only [Call.run] at h
    cases hget : AceEngine.GetContainer w instanceId with
    | none => simp only [hget, Except.ok.injEq] at h; subst h; exact hw
    | some c =>
      have hc := World.pipelinesHaveFrontends_get w instanceId c hw hget
      have hk := AceContainer.Destroy_keeps c w hc
      simp only [hget, Except.ok.injEq] at h
      subst h
      exact World.pipelinesHaveFrontends_store _ _ _
        (World.pipelinesHaveFrontends_congr w _ hk.1 hw) hk.2
  | DestroyContainer instanceId =>
    simp only [Call.run, AceContainer.DestroyContainer, Except.ok.injEq] at h
    cases hget : AceEngine.GetContainer w instanceId with
    | none => simp only [hget] at h; subst h; exact hw
    | some c =>
      have hc := World.pipelinesHaveFrontends_get w instanceId c hw hget
      have hk := AceContainer.Destroy_keeps c w hc
      simp only [hget] at h
      subst h
      apply World.pipelinesHaveFrontends_remove
      have hk2 := AceContainer.DestroyView_keeps (c.Destroy w).1
        (if (c.Destroy w).1.GetTaskExecutor.isSome = true then
          ((c.Destroy w).2.emit (Event.PostSyncTask Task.WaitUI TaskType.UI)).emit
            (Event.PostSyncTask Task.WaitJS TaskType.JS)
        else (c.Destroy w).2) hk.2
      apply World.pipelinesHaveFrontends_store _ _ _ _ hk2.2
      apply World.pipelinesHaveFrontends_congr w _ _ hw
      rw [hk2.1]
      split <;> simpa [World.emit] using hk.1

/-- C25: in every world reached from an empty registry by a sequence of
non-faulting calls of `CreateContainer`, `SetView`, `AddAssetPath`, the
lifecycle and page entry points, `Destroy` and `DestroyContainer`, every
registered container holds a Pipeline only if it also holds a Frontend. -/
theorem pipeline_only_with_frontend (env : Env) (calls : List Call) (w0 w : World)
    (hempty : w0.registry = []) (hrun : runCalls env w0 calls = Except.ok w) :
    ∀ (instanceId : Int) (c : AceContainer), (instanceId, c) ∈ w.registry →
      c.pipelineContext_.isSome = true → c.frontend_.isSome = true := by
  have hinv : ∀ (calls : List Call) (w1 w2 : World), w1.pipelinesHaveFrontends = true →
      runCalls env w1 calls = Except.ok w2 → w2.pipelinesHaveFrontends = true := by
    intro calls
    induction calls with
    | nil =>
      intro w1 w2 h1 h
      simp only [runCalls, Except.ok.injEq] at h
      subst h
      exact h1
    | cons call rest ih =>
      intro w1 w2 h1 h
      simp only [runCalls] at h
      cases hcall : call.run env w1 with
      | error e => simp [hcall] at h
      | ok w3 =>
        simp only [hcall] at h
        exact ih w3 w2 (Call.run_keeps env w1 w3 call h1 hcall) h
  have h0 : w0.pipelinesHaveFrontends = true := by
    simp [World.pipelinesHaveFrontends, hempty]
  have hw := (World.pipelinesHaveFrontends_iff w).mp (hinv calls w0 w h0 hrun)
  intro instanceId c hmem hp
  have := hw (instanceId, c) hmem
  simpa [AceContainer.pipelineHasFrontend, hp] using this

/-- The sample attached world is what the sample calls produce from the empty
world. -/
theorem Sample.attachedWorld_run :
    runCalls Sample.env Sample.empty Sample.calls = Except.ok Sample.attachedWorld := rfl

/-- Witness of C25: after the sample calls the registered container of id 1,
which holds pipeline 2, holds frontend 0. -/
theorem pipeline_only_with_frontend_witness :
    (1, Sample.live) ∈ Sample.attachedWorld.registry ∧
    Sample.live.pipelineContext_.isSome = true ∧ Sample.live.frontend_.isSome = true :=
  ⟨by decide, rfl,
    pipeline_only_with_frontend Sample.env Sample.calls Sample.empty Sample.attachedWorld rfl
      rfl 1 Sample.live (by decide) rfl⟩

end OHOS.Ace.Platform

namespace OHOS.Ace.Framework

/-- The lowercase of any character is not in `[A-Z]`. -/
theorem isUpperAZ_tolower (c : Char) : isUpperAZ (tolower c) = false := by
  unfold tolower
  by_cases h : isUpperAZ c = true
  · rw [if_pos h]
    have h1 : 65 ≤ c.toNat ∧ c.toNat ≤ 90 := by
      have := h
      simp only [isUpperAZ, Bool.and_eq_true, decide_eq_true_eq] at this
      exact ⟨this.1, this.2⟩
    obtain ⟨hlo, hhi⟩ := h1
    generalize c.toNat = n at hlo hhi
    interval_cases n <;> decide
  · rw [if_neg h]
    simpa using h

/-- C29: `ConvertStrToPropertyType(s)` is `s` with each uppercase letter `c`
replaced by '-' followed by the lowercase of `c` and every other character
unchanged; so the result holds no uppercase letter, its length is the length
of `s` plus the number of uppercase letters in `s`, and the function is the
identity on a string without uppercase letters. -/
theorem ConvertStrToPropertyType_dash_lowercase (s : String) :
    JsInspectorManager.ConvertStrToPropertyType s = dashLowercase s ∧
    (∀ c ∈ (JsInspectorManager.ConvertStrToPropertyType s).data, isUpperAZ c = false) ∧
    (JsInspectorManager.ConvertStrToPropertyType s).data.length
      = s.data.length + s.data.countP isUpperAZ ∧
    ((∀ c ∈ s.data, isUpperAZ c = false) → JsInspectorManager.ConvertStrToPropertyType s = s) := by
  have hdash : tolower '-' = '-' := by decide
  have hkeep : ∀ c, isUpperAZ c = false → tolower c = c := by
    intro c hc
    simp [tolower, hc]
  have hmap : ∀ l : List Char, (regexReplaceUpper l).map tolower
      = l.flatMap (fun c => if isUpperAZ c then ['-', tolower c] else [c]) := by
    intro l
    induction l with
    | nil => rfl
    | cons c cs ih =>
      by_cases hc : isUpperAZ c = true
      · simp [regexReplaceUpper, hc, ih, hdash, List.flatMap_cons]
      · have hc2 : isUpperAZ c = false := by simpa using hc
        simp [regexReplaceUpper, hc2, ih, hkeep c hc2, List.flatMap_cons]
  have hlen : ∀ l : List Char, (regexReplaceUpper l).length = l.length + l.countP isUpperAZ := by
    intro l
    induction l with
    | nil => rfl
    | cons c cs ih =>
      by_cases hc : isUpperAZ c = true
      · simp [regexReplaceUpper, hc, ih]; omega
      · have hc2 : isUpperAZ c = false := by simpa using hc
        simp [regexReplaceUpper, hc2, ih]; omega
  have hid : ∀ l : List Char, (∀ c ∈ l, isUpperAZ c = false) →
      (regexReplaceUpper l).map tolower = l := by
    intro l
    induction l with
    | nil => intro _; rfl
    | cons c cs ih =>
      intro h
      have hc := h c (by simp)
      have hcs : ∀ x ∈ cs, isUpperAZ x = false := fun x hx => h x (List.mem_cons_of_mem _ hx)
      simp [regexReplaceUpper, hc, hkeep c hc, ih hcs]
  refine ⟨?_, ?_, ?_, ?_⟩
  · simp [JsInspectorManager.ConvertStrToPropertyType, dashLowercase, hmap]
  · intro c hc
    simp only [JsInspectorManager.ConvertStrToPropertyType, List.mem_map] at hc
    obtain ⟨a, _, rfl⟩ := hc
    exact isUpperAZ_tolower a
  · simp [JsInspectorManager.ConvertStrToPropertyType, hlen]
  · intro h
    simp [JsInspectorManager.ConvertStrToPropertyType, hid s.data h]

end OHOS.Ace.Framework

namespace OHOS.Ace.Framework

/-- `find_first_of` reports `npos` for a list without the character. -/
theorem find_first_of_absent (c : Char) (l : List Char) (h : c ∉ l) :
    find_first_of c l = npos := by
  induction l with
  | nil => rfl
  | cons x xs ih =>
    have hx : ¬ x = c := fun e => h (by simp [e])
    have hxs : c ∉ xs := fun e => h (List.mem_cons_of_mem _ e)
    simp [find_first_of, hx, ih hxs]

/-- `find_first_of` reports the index of the first occurrence. -/
theorem find_first_of_first (c : Char) (pre post : List Char) (h : c ∉ pre)
    (hlen : pre.length < npos) : find_first_of c (pre ++ c :: post) = pre.length := by
  induction pre with
  | nil => simp [find_first_of]
  | cons x xs ih =>
    have hx : ¬ x = c := fun e => h (by simp [e])
    have hxs : c ∉ xs := fun e => h (List.mem_cons_of_mem _ e)
    have hl : xs.length < npos := by
      have : (x :: xs).length = xs.length + 1 := rfl
      omega
    have hne : ¬ xs.length = npos := by omega
    simp [find_first_of, hx, ih hxs hl, hne]

/-- The position `npos` converts to -1. -/
theorem toInt32_npos : toInt32 npos = -1 := by
  decide

/-- A position below 2^31 converts to itself. -/
theorem toInt32_small (n : Nat) (h : n < 2 ^ 31) : toInt32 n = (n : Int) := by
  have hmod : n % 2 ^ 32 = n := Nat.mod_eq_of_lt (by omega)
  unfold toInt32
  rw [hmod, if_pos h]

/-- Erasing the element at the length of `pre` removes the element right after
`pre`. -/
theorem eraseIdx_append_cons (pre post : List Char) (c : Char) :
    (pre ++ c :: post).eraseIdx pre.length = pre ++ post := by
  induction pre with
  | nil => rfl
  | cons x xs ih => simp [List.eraseIdx, ih]

/-- C30: when `info[0]` is an object whose `src` parses to `s` (shorter than
2^31 characters, so that its positions fit the `int` the code stores them in),
the source computed for the web component is `s` itself when `s` contains no
'/', and otherwise `s` with only its first '/' removed, every later '/' kept;
with a `controller` that is an object exactly that component is pushed on the
view stack. When the `controller` property is not an object, or `src` fails to
parse, the view stack is left as it was. -/
theorem JSWeb_Create_removes_first_slash (js : JsBinding) (st : ViewState) (info0 : JSValue)
    (rest : List JSValue) (s : String)
    (hobj : js.isObject info0 = true)
    (hparse : js.parseJsMedia (js.getProperty info0 "src") = some s)
    (hlen : s.data.length < 2 ^ 31) :
    ('/' ∉ s.data → JSWeb.dstSrc s = s) ∧
    (∀ pre post : List Char, s.data = pre ++ '/' :: post → '/' ∉ pre →
      JSWeb.dstSrc s = String.mk (pre ++ post)) ∧
    (js.isObject (js.getProperty info0 "controller") = true →
      JSWeb.Create js (info0 :: rest) st =
        { stack := st.stack ++
            [{ src := JSWeb.dstSrc s,
               webController :=
                 (js.unwrapWebController (js.getProperty info0 "controller")).getD none }],
          focusNode := st.focusNode ++ [true] }) ∧
    (js.isObject (js.getProperty info0 "controller") = false →
      JSWeb.Create js (info0 :: rest) st = st) ∧
    (∀ js2 : JsBinding, js2.parseJsMedia (js2.getProperty info0 "src") = none →
      JSWeb.Create js2 (info0 :: rest) st = st) := by
  refine ⟨?_, ?_, ?_, ?_, ?_⟩
  · intro hno
    simp [JSWeb.dstSrc, find_first_of_absent '/' s.data hno, toInt32_npos]
  · intro pre post hdata hpre
    have hpl : pre.length < 2 ^ 31 := by
      have : s.data.length = pre.length + (post.length + 1) := by simp [hdata]
      omega
    have hnp : pre.length < npos := by
      have : (2 : Nat) ^ 31 < npos := by decide
      omega
    have hfind : find_first_of '/' s.data = pre.length := by
      rw [hdata]
      exact find_first_of_first '/' pre post hpre hnp
    have hnn : ¬ ((pre.length : Int) < 0) := by omega
    simp only [JSWeb.dstSrc, hfind, toInt32_small pre.length hpl, hnn, if_false, Int.toNat_ofNat]
    rw [hdata, eraseIdx_append_cons]
  · intro hc
    cases hu : js.unwrapWebController (js.getProperty info0 "controller") <;>
    simp [JSWeb.Create, hobj, hparse, hc, hu]
  · intro hc
    simp [JSWeb.Create, hobj, hparse, hc]
  · intro js2 hp
    simp only [JSWeb.Create, hp]
    split <;> rfl

/-- Witness of C30 on the sample binding: "a/b/c" becomes "ab/c" and the
component with web controller 7 is pushed on the empty view stack. -/
theorem JSWeb_Create_removes_first_slash_witness :
    JSWeb.dstSrc "a/b/c" = "ab/c" ∧
    JSWeb.Create Sample.binding [1] { stack := [], focusNode := [] } =
      { stack := [{ src := "ab/c", webController := some 7 }], focusNode := [true] } :=
  have h := JSWeb_Create_removes_first_slash Sample.binding { stack := [], focusNode := [] } 1 []
    "a/b/c" (by decide) (by decide) (by decide)
  ⟨h.2.1 ['a'] ['b', '/', 'c'] rfl (by decide),
    (h.2.2.1 (by decide)).trans (by decide)⟩

end OHOS.Ace.Framework
